import Mathlib

/-!
Qubestr: admission policy of the relay

A shallow embedding of `internal/handlers/validation.go` (the three event
hooks `ValidateKind`, `ValidateHyperSignalEvent`, `ValidateQubeManagerEvent`,
the filter hook `RequireAuth` and the tag helpers) together with the
properties of the specification that concern them.

Modelling conventions

* A Go `string` is a Lean `String`; Go's `len(s)` is the number of bytes of
  the UTF-8 encoding, `len` below.
* A Go `int` is an `Int`; no arithmetic is performed on kinds.
* A hook has the Go signature `(ctx, event) -> (bool, string)`.  The two
  ambient inputs it can read are made explicit: the process environment
  (`Environ`, read through `getEnv`) and the request context (`Context`, read
  through `GetAuthed`).
* `log.Printf` writes a line to the process log and has no influence on the
  returned pair; the embedding returns the pair only.
* A `for ... range` loop with an early `return` is a recursive function over
  the list.
* An index expression `tag[i]` is written under the length test that guards
  it in the source; the `Checked` variants of the tag helpers make the
  run-time panic of an index out of range explicit instead.
* The host relay calls the hooks of `relay.RejectEvent` in order and stops at
  the first rejection, `runRejectEvent`.
-/

namespace Qubestr

/-! ## Data model -/

/-- A tag of an event: an ordered sequence of strings (`nostr.Tag`). -/
abbrev Tag := List String

/-- The fields of `nostr.Event`. -/
structure Event where
  ID : String
  PubKey : String
  CreatedAt : Int
  Kind : Int
  Tags : List Tag
  Content : String
  Sig : String
  deriving DecidableEq, Repr

/-- The fields of `nostr.Filter` (the tag map is a list of name/values pairs). -/
structure Filter where
  IDs : List String
  Kinds : List Int
  Authors : List String
  Tags : List (String × List String)
  Since : Option Int
  Until : Option Int
  Limit : Int
  Search : String
  LimitZero : Bool
  deriving DecidableEq, Repr

/-- The part of the request context the hooks read: the public key that the
connection authenticated with, `""` when it did not authenticate. -/
structure Context where
  authed : String
  deriving DecidableEq, Repr

/-- The call `khatru.GetAuthed(ctx)`. -/
def GetAuthed (ctx : Context) : String := ctx.authed

/-- The process environment: `os.LookupEnv` as a function. -/
abbrev Environ := String → Option String

/-- The function `getEnv(key, defaultVal)` of the source. -/
def getEnv (env : Environ) (key defaultVal : String) : String :=
  match env key with
  | some val => val
  | none => defaultVal

/-! ## Library functions used by the hooks -/

/-- Go's `len(s)` on a string: the length in bytes. -/
def len (s : String) : Nat := s.utf8ByteSize

/-- The verb `%d` of `fmt.Sprintf` on an `int`: decimal digits, with a leading
minus sign for a negative number. -/
def fmtD (k : Int) : String := toString k

/-- Cut a character sequence at every occurrence of `sep`. There is always at
least one piece; the pieces do not contain `sep`. -/
def splitChars (sep : Char) : List Char → List (List Char)
  | [] => [[]]
  | c :: cs =>
    if c = sep then [] :: splitChars sep cs
    else
      match splitChars sep cs with
      | [] => [[c]]
      | p :: ps => (c :: p) :: ps

/-- The call `strings.Split(s, sep)` for a separator of one ASCII character
(the source calls it with `","` and `":"`): the substrings of `s` between the
separators, in order; `Split "" sep = [""]`. -/
def Split (s : String) (sep : Char) : List String :=
  (splitChars sep s.data).map String.mk

/-! ## Tag helpers -/

/-- The loop of `hasTag` over the tags that remain. -/
def hasTagIn (name : String) : List Tag → Bool
  | [] => false
  | tag :: rest =>
    if h : tag.length > 0 then
      if tag[0] = name then true else hasTagIn name rest
    else hasTagIn name rest

/-- The helper `hasTag`: some tag is non-empty and has `name` as element 0. -/
def hasTag (event : Event) (name : String) : Bool :=
  hasTagIn name event.Tags

/-- The loop of `hasTagWithValue` over the tags that remain. -/
def hasTagWithValueIn (name value : String) : List Tag → Bool
  | [] => false
  | tag :: rest =>
    if h : tag.length > 1 then
      if tag[0] = name ∧ tag[1] = value then true else hasTagWithValueIn name value rest
    else hasTagWithValueIn name value rest

/-- The helper `hasTagWithValue`: some tag has at least two elements, `name`
as element 0 and `value` as element 1. -/
def hasTagWithValue (event : Event) (name : String) (value : String) : Bool :=
  hasTagWithValueIn name value event.Tags

/-- The loop of `getTagValue` over the tags that remain. -/
def getTagValueIn (name : String) : List Tag → String
  | [] => ""
  | tag :: rest =>
    if h : tag.length > 1 then
      if tag[0] = name then tag[1] else getTagValueIn name rest
    else getTagValueIn name rest

/-- The helper `getTagValue`: element 1 of the first tag that has at least two
elements and `name` as element 0; `""` when there is none. -/
def getTagValue (event : Event) (name : String) : String :=
  getTagValueIn name event.Tags

/-! ## The hooks -/

/-- The hook `ValidateKind`. -/
def ValidateKind (_env : Environ) (_ctx : Context) (event : Event) : Bool × String :=
  if event.Kind ≠ 33321 ∧ event.Kind ≠ 3333 then
    (true, "unsupported kind: " ++ fmtD event.Kind)
  else
    (false, "")

/-- The loop `for _, pubkey := range authorizedPubkeys` of
`ValidateHyperSignalEvent`: the final value of `isAuthorized`. -/
def isAuthorizedIn (authenticatedUserPubkey : String) : List String → Bool
  | [] => false
  | pubkey :: rest =>
    if authenticatedUserPubkey = pubkey then true
    else isAuthorizedIn authenticatedUserPubkey rest

/-- The loop `for _, tag := range requiredTags` of the two validators: the
first name of the list for which `hasTag` fails (the loop returns there), or
`none` when the loop runs to its end. -/
def firstMissingTag (event : Event) : List String → Option String
  | [] => none
  | tag :: rest =>
    if !hasTag event tag then some tag else firstMissingTag event rest

/-- The hook `ValidateHyperSignalEvent`. -/
def ValidateHyperSignalEvent (env : Environ) (ctx : Context) (event : Event) : Bool × String :=
  if event.Kind = 33321 then
    let authenticatedUserPubkey := GetAuthed ctx
    if authenticatedUserPubkey = "" then
      (true, "auth-required: publishing Kind 33321 requires authentication")
    else
      let authorizedPubkeys := Split (getEnv env "AUTHORIZED_PUBKEYS" "") ','
      let isAuthorized := isAuthorizedIn authenticatedUserPubkey authorizedPubkeys
      if !isAuthorized then
        (true, "restricted: your public key is not authorized to publish Kind 33321 events")
      else if !hasTagWithValue event "d" "hyperqube" then
        (true, "hyperqube: missing required 'd' tag with value 'hyperqube'")
      else
        match firstMissingTag event ["version", "hash", "network", "action"] with
        | some tag => (true, "hyperqube: missing required '" ++ tag ++ "' tag")
        | none =>
          let actionTag := getTagValue event "action"
          if actionTag ≠ "upgrade" ∧ actionTag ≠ "reboot" then
            (true, "hyperqube: 'action' tag must be either 'upgrade' or 'reboot'")
          else if actionTag = "reboot" ∧
              (!hasTag event "genesis_url" || !hasTag event "required_by") then
            (true, "hyperqube: 'reboot' action requires 'genesis_url' and 'required_by' tags")
          else if len event.Content = 0 then
            (true, "hyperqube: content must be a human-readable string")
          else
            (false, "")
  else
    (false, "")

/-- The test of the `a` tag in `ValidateQubeManagerEvent`, on the result of
`strings.Split(aTagValue, ":")`:
`len(parts) != 3 || parts[0] != "33321" || len(parts[1]) != 64 || parts[2] != "hyperqube"`.
The disjunction is evaluated left to right, so the parts are read only when
there are three of them. -/
def aTagMalformed (parts : List String) : Bool :=
  if h : parts.length ≠ 3 then true
  else
    have h3 : parts.length = 3 := not_not.mp h
    decide (parts[0] ≠ "33321") || decide (len parts[1] ≠ 64) ||
      decide (parts[2] ≠ "hyperqube")

/-- The hook `ValidateQubeManagerEvent`. -/
def ValidateQubeManagerEvent (_env : Environ) (ctx : Context) (event : Event) : Bool × String :=
  if event.Kind = 3333 then
    if GetAuthed ctx = "" then
      (true, "auth-required: publishing Kind 3333 requires authentication")
    else
      match firstMissingTag event
          ["a", "version", "network", "action", "status", "node_id", "action_at"] with
      | some tag => (true, "qube-manager: missing required '" ++ tag ++ "' tag")
      | none =>
        let aTagValue := getTagValue event "a"
        let parts := Split aTagValue ':'
        if aTagMalformed parts then
          (true, "qube-manager: invalid 'a' tag format (should be '33321:<64_hex_pubkey>:hyperqube')")
        else
          let actionTag := getTagValue event "action"
          if actionTag ≠ "upgrade" ∧ actionTag ≠ "reboot" then
            (true, "qube-manager: 'action' tag must be either 'upgrade' or 'reboot'")
          else
            let statusTag := getTagValue event "status"
            if statusTag ≠ "success" ∧ statusTag ≠ "failure" then
              (true, "qube-manager: 'status' tag should be 'success' or 'failure'")
            else if statusTag = "failure" ∧ !hasTag event "error" then
              (true, "qube-manager: 'failure' status requires 'error' tag")
            else if len event.Content = 0 then
              (true, "qube-manager: content must be a human-readable string")
            else
              (false, "")
  else
    (false, "")

/-- The hook `RequireAuth`. -/
def RequireAuth (_env : Environ) (ctx : Context) (_filter : Filter) : Bool × String :=
  if GetAuthed ctx = "" then
    (true, "auth-required: this relay requires authentication to read events")
  else
    (false, "")

/-! ## Vocabulary of the specification -/

/-- The specification's "a tag named `name` exists": `name` is element 0 of
some tag of the event. -/
def TagNamed (event : Event) (name : String) : Prop :=
  ∃ tag ∈ event.Tags, tag[0]? = some name

/-- The specification's "a tag named `name` exists with value `value`": some
tag has at least two elements, element 0 being `name` and element 1 `value`. -/
def TagNamedWithValue (event : Event) (name value : String) : Prop :=
  ∃ tag ∈ event.Tags, tag[0]? = some name ∧ tag[1]? = some value

instance (event : Event) (name : String) : Decidable (TagNamed event name) :=
  inferInstanceAs (Decidable (∃ tag ∈ event.Tags, tag[0]? = some name))

instance (event : Event) (name value : String) :
    Decidable (TagNamedWithValue event name value) :=
  inferInstanceAs (Decidable (∃ tag ∈ event.Tags, tag[0]? = some name ∧ tag[1]? = some value))

/-- A hexadecimal digit: `0`-`9`, `a`-`f` or `A`-`F`. -/
def isHexChar (c : Char) : Bool :=
  decide ((48 ≤ c.toNat ∧ c.toNat ≤ 57) ∨ (97 ≤ c.toNat ∧ c.toNat ≤ 102) ∨
    (65 ≤ c.toNat ∧ c.toNat ≤ 70))

/-- The roster configuration string: the value of the option
`AUTHORIZED_PUBKEYS`, `""` when it is not set. -/
def rosterConfig (env : Environ) : String := getEnv env "AUTHORIZED_PUBKEYS" ""

/-- An environment in which `AUTHORIZED_PUBKEYS` is set to `r` and nothing
else is set. -/
def envWithRoster (r : String) : Environ :=
  fun key => if key = "AUTHORIZED_PUBKEYS" then some r else none

/-! ## The chain of event hooks -/

/-- The type of an event-admission hook (`relay.RejectEvent` holds a list of
them), with the two ambient inputs made explicit. -/
abbrev RejectEventHook := Environ → Context → Event → Bool × String

/-- The hooks that `main` appends to `relay.RejectEvent`, in the order of the
source. -/
def rejectEventHooks : List RejectEventHook :=
  [ValidateKind, ValidateHyperSignalEvent, ValidateQubeManagerEvent]

/-- Modelled from the spec: the host relay's evaluation of `relay.RejectEvent`
(the loop lives in the library `khatru`, which is not among the sources). The
hooks are called in their order and the first rejection wins; when no hook
rejects the event is admitted, `(false, "")`. -/
def runRejectEvent (hooks : List RejectEventHook) (env : Environ) (ctx : Context)
    (event : Event) : Bool × String :=
  match hooks with
  | [] => (false, "")
  | hook :: rest =>
    if (hook env ctx event).1 then (true, (hook env ctx event).2)
    else runRejectEvent rest env ctx event

/-! ## The tag helpers with checked indexing -/

/-- Go's index expression `tag[i]`; `none` stands for the run-time panic that
an index out of range raises. -/
def index (tag : Tag) (i : Nat) : Option String := tag[i]?

/-- The loop of `hasTag` with every index expression checked: `none` when
some `tag[0]` is evaluated out of range. The operator `&&` evaluates its
right operand only when the left one is true. -/
def hasTagChecked (name : String) : List Tag → Option Bool
  | [] => some false
  | tag :: rest =>
    if tag.length > 0 then
      match index tag 0 with
      | none => none
      | some t0 => if t0 = name then some true else hasTagChecked name rest
    else hasTagChecked name rest

/-- The loop of `hasTagWithValue` with every index expression checked. -/
def hasTagWithValueChecked (name value : String) : List Tag → Option Bool
  | [] => some false
  | tag :: rest =>
    if tag.length > 1 then
      match index tag 0 with
      | none => none
      | some t0 =>
        if t0 = name then
          match index tag 1 with
          | none => none
          | some t1 =>
            if t1 = value then some true else hasTagWithValueChecked name value rest
        else hasTagWithValueChecked name value rest
    else hasTagWithValueChecked name value rest

/-- The loop of `getTagValue` with every index expression checked. -/
def getTagValueChecked (name : String) : List Tag → Option String
  | [] => some ""
  | tag :: rest =>
    if tag.length > 1 then
      match index tag 0 with
      | none => none
      | some t0 => if t0 = name then index tag 1 else getTagValueChecked name rest
    else getTagValueChecked name rest

/-! ## More vocabulary of the specification -/

/-- The event with its tags replaced by `tags`. -/
def withTags (event : Event) (tags : List Tag) : Event :=
  { event with Tags := tags }

/-- The specification's "`s` starts with `start`". -/
def StartsWith (s start : String) : Prop := start.data <+: s.data

instance (s start : String) : Decidable (StartsWith s start) :=
  inferInstanceAs (Decidable (start.data <+: s.data))

/-- The tag names that the two validators look up. -/
def inspectedNames : List String :=
  ["d", "version", "hash", "network", "action", "genesis_url", "required_by", "a", "status",
   "node_id", "action_at", "error"]

/-! ## Sample inputs -/

/-- A public key of 64 hexadecimal digits. -/
def sampleKey : String :=
  "aaaaaaaaaaaaaaaaaaaaaaaaaaaaaaaaaaaaaaaaaaaaaaaaaaaaaaaaaaaaaaaa"

/-- An event with the given kind, tags and content (the other fields fixed). -/
def mkEvent (kind : Int) (tags : List Tag) (content : String) : Event :=
  { ID := "e1", PubKey := "author", CreatedAt := 0, Kind := kind, Tags := tags,
    Content := content, Sig := "sig" }

/-- The tags of a well-formed Signal event with action `upgrade`. -/
def upgradeTags : List Tag :=
  [["d", "hyperqube"], ["version", "1.2.0"], ["hash", "abc"], ["network", "main"],
   ["action", "upgrade"]]

/-- The tags of a well-formed Manager event (Scenario D of the specification). -/
def managerTags : List Tag :=
  [["a", "33321:aaaaaaaaaaaaaaaaaaaaaaaaaaaaaaaaaaaaaaaaaaaaaaaaaaaaaaaaaaaaaaaa:hyperqube"],
   ["version", "1.2.0"], ["network", "main"], ["action", "upgrade"], ["status", "success"],
   ["node_id", "n1"], ["action_at", "1700000000"]]

/-- A filter with no constraint. -/
def emptyFilter : Filter :=
  { IDs := [], Kinds := [], Authors := [], Tags := [], Since := none, Until := none,
    Limit := 0, Search := "", LimitZero := false }

/-- A string of 64 letters `z`: 64 characters, none of them a hexadecimal digit. -/
def zKey : String :=
  "zzzzzzzzzzzzzzzzzzzzzzzzzzzzzzzzzzzzzzzzzzzzzzzzzzzzzzzzzzzzzzzz"

/-- A string of 32 letters `é`: 32 characters, 64 bytes in UTF-8. -/
def accentKey : String :=
  "éééééééééééééééééééééééééééééééé"

/-- The tags of Scenario D with the key part of `a` replaced by `key`. -/
def managerTagsWithKey (key : String) : List Tag :=
  [["a", "33321:" ++ key ++ ":hyperqube"],
   ["version", "1.2.0"], ["network", "main"], ["action", "upgrade"], ["status", "success"],
   ["node_id", "n1"], ["action_at", "1700000000"]]

/-- Well-formed `upgrade` tags preceded by a `d` tag with another value. -/
def shadowedTags : List Tag :=
  ["d", "other"] :: upgradeTags

/-! ## Facts about the library functions and the loops -/

theorem utf8ByteSize_go_pos (c : Char) (cs : List Char) :
    0 < String.utf8ByteSize.go (c :: cs) := by
  have h := Char.utf8Size_pos c
  simp only [String.utf8ByteSize.go]
  omega

theorem len_eq_zero_iff (s : String) : len s = 0 ↔ s = "" := by
  constructor
  · intro h
    cases s with
    | mk data =>
      cases data with
      | nil => rfl
      | cons c cs =>
        have hp := utf8ByteSize_go_pos c cs
        simp only [len, String.utf8ByteSize] at h
        omega
  · intro h
    subst h
    rfl

theorem hasTagIn_iff (name : String) (tags : List Tag) :
    hasTagIn name tags = true ↔ ∃ tag ∈ tags, tag[0]? = some name := by
  induction tags with
  | nil => simp [hasTagIn]
  | cons tag rest ih =>
    cases tag with
    | nil => simp [hasTagIn, ih]
    | cons t ts =>
      by_cases ht : t = name
      · simp [hasTagIn, ht]
      · simp [hasTagIn, ht, ih]

theorem hasTag_iff (event : Event) (name : String) :
    hasTag event name = true ↔ TagNamed event name :=
  hasTagIn_iff name event.Tags

theorem hasTag_eq_false_iff (event : Event) (name : String) :
    hasTag event name = false ↔ ¬ TagNamed event name := by
  rw [← hasTag_iff]
  simp

theorem hasTagWithValueIn_iff (name value : String) (tags : List Tag) :
    hasTagWithValueIn name value tags = true ↔
      ∃ tag ∈ tags, tag[0]? = some name ∧ tag[1]? = some value := by
  induction tags with
  | nil => simp [hasTagWithValueIn]
  | cons tag rest ih =>
    match tag with
    | [] => simp [hasTagWithValueIn, ih]
    | [t] => simp [hasTagWithValueIn, ih]
    | t :: u :: ts =>
      by_cases ht : t = name ∧ u = value
      · simp [hasTagWithValueIn, ht]
      · have ht2 : ¬ (t = name ∧ u = value) := ht
        simp only [not_and] at ht2
        simp [hasTagWithValueIn, ht, ih, ht2]

theorem hasTagWithValue_iff (event : Event) (name value : String) :
    hasTagWithValue event name value = true ↔ TagNamedWithValue event name value :=
  hasTagWithValueIn_iff name value event.Tags

theorem isAuthorizedIn_iff (a : String) (keys : List String) :
    isAuthorizedIn a keys = true ↔ a ∈ keys := by
  induction keys with
  | nil => simp [isAuthorizedIn]
  | cons k rest ih =>
    by_cases hk : a = k
    · simp [isAuthorizedIn, hk]
    · simp [isAuthorizedIn, hk, ih]

theorem firstMissingTag_eq_none_iff (event : Event) (names : List String) :
    firstMissingTag event names = none ↔ ∀ n ∈ names, hasTag event n = true := by
  induction names with
  | nil => simp [firstMissingTag]
  | cons n rest ih =>
    cases hn : hasTag event n <;> simp [firstMissingTag, hn, ih]

theorem firstMissingTag_eq_some_iff (event : Event) (names : List String) (n : String) :
    firstMissingTag event names = some n ↔
      ∃ pre post, names = pre ++ n :: post ∧ (∀ m ∈ pre, hasTag event m = true) ∧
        hasTag event n = false := by
  induction names with
  | nil => simp [firstMissingTag]
  | cons m rest ih =>
    cases hm : hasTag event m
    · simp only [firstMissingTag, hm, Bool.not_false, if_true, Option.some.injEq]
      constructor
      · intro h
        subst h
        exact ⟨[], rest, rfl, by simp, hm⟩
      · rintro ⟨pre, post, hsplit, hpre, _⟩
        cases pre with
        | nil =>
          simp at hsplit
          exact hsplit.1
        | cons p pre =>
          simp at hsplit
          have := hpre p (by simp)
          rw [← hsplit.1, hm] at this
          cases this
    · have e : firstMissingTag event (m :: rest) = firstMissingTag event rest := by
        simp [firstMissingTag, hm]
      rw [e, ih]
      constructor
      · rintro ⟨pre, post, hsplit, hpre, hn⟩
        refine ⟨m :: pre, post, by simp [hsplit], ?_, hn⟩
        intro x hx
        rcases List.mem_cons.mp hx with rfl | hx
        · exact hm
        · exact hpre x hx
      · rintro ⟨pre, post, hsplit, hpre, hn⟩
        cases pre with
        | nil =>
          simp at hsplit
          rw [hsplit.1, hn] at hm
          cases hm
        | cons p pre =>
          simp at hsplit
          exact ⟨pre, post, hsplit.2, fun x hx => hpre x (by simp [hx]), hn⟩

theorem aTagMalformed_eq_false_iff (parts : List String) :
    aTagMalformed parts = false ↔
      ∃ p, parts = ["33321", p, "hyperqube"] ∧ len p = 64 := by
  match parts with
  | [] => simp [aTagMalformed]
  | [_] => simp [aTagMalformed]
  | [_, _] => simp [aTagMalformed]
  | [a, b, c] =>
    simp only [aTagMalformed]
    simp
    constructor
    · rintro ⟨⟨h1, h2⟩, h3⟩
      exact ⟨b, ⟨h1, rfl, h3⟩, h2⟩
    · rintro ⟨p, ⟨h1, h2, h3⟩, h4⟩
      subst h2
      exact ⟨⟨h1, h4⟩, h3⟩
  | _ :: _ :: _ :: _ :: _ => simp [aTagMalformed]


theorem splitChars_ne_nil (sep : Char) (cs : List Char) : splitChars sep cs ≠ [] := by
  cases cs with
  | nil => simp [splitChars]
  | cons c cs =>
    by_cases hc : c = sep
    · simp [splitChars, hc]
    · cases h : splitChars sep cs <;> simp [splitChars, hc, h]

theorem splitChars_cons_sep (sep : Char) (cs : List Char) :
    splitChars sep (sep :: cs) = [] :: splitChars sep cs := by
  simp [splitChars]

theorem splitChars_cons_ne (sep c : Char) (cs q : List Char) (qs : List (List Char))
    (hc : c ≠ sep) (h : splitChars sep cs = q :: qs) :
    splitChars sep (c :: cs) = (c :: q) :: qs := by
  simp [splitChars, hc, h]

/-- No piece of a split contains the separator. -/
theorem splitChars_not_mem (sep : Char) (cs : List Char) :
    ∀ p ∈ splitChars sep cs, sep ∉ p := by
  induction cs with
  | nil => simp [splitChars]
  | cons c cs ih =>
    by_cases hc : c = sep
    · subst hc
      rw [splitChars_cons_sep]
      simpa using ih
    · cases h : splitChars sep cs with
      | nil => exact absurd h (splitChars_ne_nil sep cs)
      | cons q qs =>
        rw [h] at ih
        rw [splitChars_cons_ne sep c cs q qs hc h]
        have hc2 : ¬ sep = c := fun e => hc e.symm
        simp only [List.mem_cons, forall_eq_or_imp, not_or]
        exact ⟨⟨hc2, ih q (by simp)⟩, fun p hp => ih p (by simp [hp])⟩

/-- Joining the pieces of a split with the separator gives the input back. -/
theorem splitChars_intercalate (sep : Char) (cs : List Char) :
    [sep].intercalate (splitChars sep cs) = cs := by
  induction cs with
  | nil => rfl
  | cons c cs ih =>
    cases h : splitChars sep cs with
    | nil => exact absurd h (splitChars_ne_nil sep cs)
    | cons q qs =>
      rw [h] at ih
      by_cases hc : c = sep
      · subst hc
        rw [splitChars_cons_sep, h, ← ih]
        simp [List.intercalate, List.intersperse]
      · rw [splitChars_cons_ne sep c cs q qs hc h, ← ih]
        cases qs <;> simp [List.intercalate, List.intersperse]

theorem splitChars_of_not_mem (sep : Char) (p : List Char) (h : sep ∉ p) :
    splitChars sep p = [p] := by
  induction p with
  | nil => rfl
  | cons c cs ih =>
    have hc : c ≠ sep := fun e => h (by simp [e])
    have hcs : sep ∉ cs := fun e => h (by simp [e])
    simp [splitChars, hc, ih hcs]

theorem splitChars_append_sep (sep : Char) (p rest : List Char) (h : sep ∉ p) :
    splitChars sep (p ++ sep :: rest) = p :: splitChars sep rest := by
  induction p with
  | nil => simp [splitChars]
  | cons c cs ih =>
    have hc : c ≠ sep := fun e => h (by simp [e])
    have hcs : sep ∉ cs := fun e => h (by simp [e])
    simp [splitChars, hc, ih hcs]

theorem isHexChar_ne_colon (c : Char) (h : isHexChar c = true) : c ≠ ':' := by
  intro e
  subst e
  revert h
  decide

theorem isHexChar_utf8Size (c : Char) (h : isHexChar c = true) : c.utf8Size = 1 := by
  have h2 : c.toNat ≤ 127 := by
    simp only [isHexChar, decide_eq_true_eq] at h
    omega
  have h3 : c.val ≤ 127 := by
    rw [UInt32.le_def]
    exact h2
  simp [Char.utf8Size, h3]

theorem utf8ByteSize_go_of_hex (cs : List Char) (h : ∀ c ∈ cs, isHexChar c = true) :
    String.utf8ByteSize.go cs = cs.length := by
  induction cs with
  | nil => rfl
  | cons c cs ih =>
    simp only [String.utf8ByteSize.go, List.length_cons]
    rw [ih (fun d hd => h d (by simp [hd])), isHexChar_utf8Size c (h c (by simp))]

theorem len_of_hex (p : String) (h : ∀ c ∈ p.data, isHexChar c = true) :
    len p = p.length := by
  cases p with
  | mk data => exact utf8ByteSize_go_of_hex data h

theorem split_reference (p : String) (h : ∀ c ∈ p.data, isHexChar c = true) :
    Split ("33321:" ++ p ++ ":hyperqube") ':' = ["33321", p, "hyperqube"] := by
  have hp : ':' ∉ p.data := fun hm => isHexChar_ne_colon _ (h _ hm) rfl
  have e : ("33321:" ++ p ++ ":hyperqube").data =
      ['3', '3', '3', '2', '1'] ++ ':' :: (p.data ++ ':' :: "hyperqube".data) := by
    simp [String.data_append]
  unfold Split
  rw [e, splitChars_append_sep _ _ _ (by decide), splitChars_append_sep _ _ _ hp,
    splitChars_of_not_mem _ _ (by decide)]
  rfl

/-! ## The decimal rendering of a kind -/

theorem digitChar_eq (d : Nat) (h : d < 10) : Nat.digitChar d = Char.ofNat (48 + d) := by
  interval_cases d <;> rfl

/-- The digit loop of the rendering produces the decimal digits of `n`, most
significant first, in front of what it was given. -/
theorem toDigitsCore_eq_digits (fuel : Nat) :
    ∀ (n : Nat) (ds : List Char), 0 < n → n < fuel →
      Nat.toDigitsCore 10 fuel n ds =
        (Nat.digits 10 n).reverse.map (fun d => Char.ofNat (48 + d)) ++ ds := by
  induction fuel with
  | zero => intro n ds _ h; omega
  | succ fuel ih =>
    intro n ds hn h
    have hmod : n % 10 < 10 := Nat.mod_lt _ (by decide)
    rw [Nat.digits_def' (by decide) hn]
    simp only [Nat.toDigitsCore, List.reverse_cons, List.map_append, List.map_cons, List.map_nil,
      List.append_assoc, List.singleton_append]
    by_cases h0 : n / 10 = 0
    · simp [h0, digitChar_eq _ hmod]
    · have hlt : n / 10 < fuel := by omega
      have hpos : 0 < n / 10 := Nat.pos_of_ne_zero h0
      simp only [h0, if_false]
      rw [ih (n / 10) _ hpos hlt, digitChar_eq _ hmod]

theorem nat_repr_eq_digits (n : Nat) :
    Nat.repr n =
      String.mk (if n = 0 then ['0']
        else (Nat.digits 10 n).reverse.map (fun d => Char.ofNat (48 + d))) := by
  by_cases h0 : n = 0
  · subst h0
    rfl
  · simp only [h0, if_false]
    unfold Nat.repr Nat.toDigits
    rw [toDigitsCore_eq_digits (n + 1) n [] (Nat.pos_of_ne_zero h0) (Nat.lt_succ_self n)]
    simp [List.asString]

/-- The rendering `fmtD` is the decimal numeral of the integer: a minus sign
when it is negative, then the decimal digits of its absolute value, most
significant first, and `0` for zero. -/
theorem fmtD_eq_digits (k : Int) :
    fmtD k =
      (if k < 0 then "-" else "") ++
        String.mk (if k.natAbs = 0 then ['0']
          else (Nat.digits 10 k.natAbs).reverse.map (fun d => Char.ofNat (48 + d))) := by
  cases k with
  | ofNat m =>
    have hneg : ¬ (Int.ofNat m < 0) := by simp
    simp only [hneg, if_false, Int.natAbs_ofNat]
    show Nat.repr m = _
    rw [nat_repr_eq_digits m]
    rfl
  | negSucc m =>
    have hneg : Int.negSucc m < 0 := Int.negSucc_lt_zero m
    simp only [hneg, if_true, Int.natAbs_negSucc]
    show "-" ++ Nat.repr (m + 1) = _
    rw [nat_repr_eq_digits (m + 1)]

/-! ## The Kind Gate -/

/-- C1: `ValidateKind` rejects exactly the events whose kind is neither 33321
nor 3333. A rejection carries the reason `"unsupported kind: "` followed by
the decimal rendering of the kind: a minus sign when the kind is negative,
then the decimal digits of its absolute value, most significant digit first
(the digit `d` is the character with code `48 + d`), and `0` for zero. A
non-rejection is `(false, "")`, and the outcome is a function of the kind
alone. -/
theorem validateKind_contract (env : Environ) (ctx : Context) (event : Event) :
    ((ValidateKind env ctx event).1 = true ↔ (event.Kind ≠ 33321 ∧ event.Kind ≠ 3333)) ∧
    ((ValidateKind env ctx event).1 = true →
      (ValidateKind env ctx event).2 =
        "unsupported kind: " ++
          ((if event.Kind < 0 then "-" else "") ++
            String.mk (if event.Kind.natAbs = 0 then ['0']
              else (Nat.digits 10 event.Kind.natAbs).reverse.map
                (fun d => Char.ofNat (48 + d))))) ∧
    ((ValidateKind env ctx event).1 = false → ValidateKind env ctx event = (false, "")) ∧
    (∀ (env2 : Environ) (ctx2 : Context) (event2 : Event), event2.Kind = event.Kind →
      ValidateKind env2 ctx2 event2 = ValidateKind env ctx event) := by
  refine ⟨?_, ?_, ?_, ?_⟩
  · unfold ValidateKind
    split_ifs with h
    · simpa using h
    · simpa using h
  · rw [← fmtD_eq_digits]
    unfold ValidateKind
    split_ifs with h <;> simp
  · unfold ValidateKind
    split_ifs with h <;> simp
  · intro env2 ctx2 event2 h
    unfold ValidateKind
    rw [h]

/-- C1 at the kinds -7, 0, 5, 1000 and 33322: the reasons are
`"unsupported kind: -7"`, `"unsupported kind: 0"`, `"unsupported kind: 5"`,
`"unsupported kind: 1000"` and `"unsupported kind: 33322"`. -/
theorem validateKind_contract_witness :
    ValidateKind (envWithRoster "") ⟨""⟩ (mkEvent (-7) [] "") =
      (true, "unsupported kind: -7") ∧
    ValidateKind (envWithRoster "") ⟨""⟩ (mkEvent 0 [] "") =
      (true, "unsupported kind: 0") ∧
    ValidateKind (envWithRoster "") ⟨""⟩ (mkEvent 5 [] "") =
      (true, "unsupported kind: 5") ∧
    ValidateKind (envWithRoster "") ⟨""⟩ (mkEvent 1000 [] "") =
      (true, "unsupported kind: 1000") ∧
    ValidateKind (envWithRoster "") ⟨""⟩ (mkEvent 33322 [] "") =
      (true, "unsupported kind: 33322") :=
  ⟨Prod.ext
      (((validateKind_contract (envWithRoster "") ⟨""⟩ (mkEvent (-7) [] "")).1).mpr
        (by decide))
      (((validateKind_contract (envWithRoster "") ⟨""⟩ (mkEvent (-7) [] "")).2.1
        (by decide)).trans (by simp [mkEvent])),
   Prod.ext
      (((validateKind_contract (envWithRoster "") ⟨""⟩ (mkEvent 0 [] "")).1).mpr
        (by decide))
      (((validateKind_contract (envWithRoster "") ⟨""⟩ (mkEvent 0 [] "")).2.1
        (by decide)).trans (by simp [mkEvent])),
   Prod.ext
      (((validateKind_contract (envWithRoster "") ⟨""⟩ (mkEvent 5 [] "")).1).mpr
        (by decide))
      (((validateKind_contract (envWithRoster "") ⟨""⟩ (mkEvent 5 [] "")).2.1
        (by decide)).trans (by simp [mkEvent])),
   Prod.ext
      (((validateKind_contract (envWithRoster "") ⟨""⟩ (mkEvent 1000 [] "")).1).mpr
        (by decide))
      (((validateKind_contract (envWithRoster "") ⟨""⟩ (mkEvent 1000 [] "")).2.1
        (by decide)).trans (by simp [mkEvent])),
   Prod.ext
      (((validateKind_contract (envWithRoster "") ⟨""⟩ (mkEvent 33322 [] "")).1).mpr
        (by decide))
      (((validateKind_contract (envWithRoster "") ⟨""⟩ (mkEvent 33322 [] "")).2.1
        (by decide)).trans (by simp [mkEvent]))⟩

/-! ## The Signal Event Validator -/

/-- The outcome of `ValidateHyperSignalEvent` on an event of kind 33321 is
`(false, "")` exactly when none of its seven tests fires. -/
theorem signal_accepts_iff_tests (env : Environ) (ctx : Context) (event : Event)
    (hk : event.Kind = 33321) :
    ValidateHyperSignalEvent env ctx event = (false, "") ↔
      GetAuthed ctx ≠ "" ∧
      isAuthorizedIn (GetAuthed ctx) (Split (getEnv env "AUTHORIZED_PUBKEYS" "") ',') = true ∧
      hasTagWithValue event "d" "hyperqube" = true ∧
      firstMissingTag event ["version", "hash", "network", "action"] = none ∧
      (getTagValue event "action" = "upgrade" ∨ getTagValue event "action" = "reboot") ∧
      (getTagValue event "action" = "reboot" →
        hasTag event "genesis_url" = true ∧ hasTag event "required_by" = true) ∧
      len event.Content ≠ 0 := by
  unfold ValidateHyperSignalEvent
  simp only [hk, if_true]
  by_cases h1 : GetAuthed ctx = ""
  · simp [h1]
  by_cases h2 : isAuthorizedIn (GetAuthed ctx) (Split (getEnv env "AUTHORIZED_PUBKEYS" "") ',') = true
  swap
  · simp [h1, h2]
  by_cases h3 : hasTagWithValue event "d" "hyperqube" = true
  swap
  · simp [h1, h2, h3]
  cases h4 : firstMissingTag event ["version", "hash", "network", "action"] with
  | some tag => simp [h1, h2, h3]
  | none =>
    simp only [h1, h2, h3, if_false, Bool.not_true, Bool.false_eq_true, ne_eq, not_false_eq_true,
      true_and]
    by_cases h5 : getTagValue event "action" = "upgrade"
    · by_cases h7 : len event.Content = 0
      · simp [h5, h7]
      · simp [h5, h7]
    · by_cases h5b : getTagValue event "action" = "reboot"
      · by_cases h6 : hasTag event "genesis_url" = true
        · by_cases h6b : hasTag event "required_by" = true
          · by_cases h7 : len event.Content = 0
            · simp [h5b, h6, h6b, h7]
            · simp [h5b, h6, h6b, h7]
          · simp [h5b, h6, h6b]
        · simp [h5b, h6]
      · simp [h5, h5b]

/-! ### The tests of `ValidateHyperSignalEvent`, one at a time -/

theorem signal_other_kind (env : Environ) (ctx : Context) (event : Event)
    (hk : event.Kind ≠ 33321) :
    ValidateHyperSignalEvent env ctx event = (false, "") := by
  unfold ValidateHyperSignalEvent
  simp [hk]

theorem signal_reject_unauthenticated (env : Environ) (ctx : Context) (event : Event)
    (hk : event.Kind = 33321) (h1 : GetAuthed ctx = "") :
    ValidateHyperSignalEvent env ctx event =
      (true, "auth-required: publishing Kind 33321 requires authentication") := by
  unfold ValidateHyperSignalEvent
  simp [hk, h1]

theorem signal_reject_unauthorized (env : Environ) (ctx : Context) (event : Event)
    (hk : event.Kind = 33321) (h1 : GetAuthed ctx ≠ "")
    (h2 : isAuthorizedIn (GetAuthed ctx) (Split (getEnv env "AUTHORIZED_PUBKEYS" "") ',') = false) :
    ValidateHyperSignalEvent env ctx event =
      (true, "restricted: your public key is not authorized to publish Kind 33321 events") := by
  unfold ValidateHyperSignalEvent
  simp [hk, h1, h2]

theorem signal_reject_d (env : Environ) (ctx : Context) (event : Event)
    (hk : event.Kind = 33321) (h1 : GetAuthed ctx ≠ "")
    (h2 : isAuthorizedIn (GetAuthed ctx) (Split (getEnv env "AUTHORIZED_PUBKEYS" "") ',') = true)
    (h3 : hasTagWithValue event "d" "hyperqube" = false) :
    ValidateHyperSignalEvent env ctx event =
      (true, "hyperqube: missing required 'd' tag with value 'hyperqube'") := by
  unfold ValidateHyperSignalEvent
  simp [hk, h1, h2, h3]

theorem signal_reject_missing (env : Environ) (ctx : Context) (event : Event) (tag : String)
    (hk : event.Kind = 33321) (h1 : GetAuthed ctx ≠ "")
    (h2 : isAuthorizedIn (GetAuthed ctx) (Split (getEnv env "AUTHORIZED_PUBKEYS" "") ',') = true)
    (h3 : hasTagWithValue event "d" "hyperqube" = true)
    (h4 : firstMissingTag event ["version", "hash", "network", "action"] = some tag) :
    ValidateHyperSignalEvent env ctx event =
      (true, "hyperqube: missing required '" ++ tag ++ "' tag") := by
  unfold ValidateHyperSignalEvent
  simp [hk, h1, h2, h3, h4]

theorem signal_reject_action (env : Environ) (ctx : Context) (event : Event)
    (hk : event.Kind = 33321) (h1 : GetAuthed ctx ≠ "")
    (h2 : isAuthorizedIn (GetAuthed ctx) (Split (getEnv env "AUTHORIZED_PUBKEYS" "") ',') = true)
    (h3 : hasTagWithValue event "d" "hyperqube" = true)
    (h4 : firstMissingTag event ["version", "hash", "network", "action"] = none)
    (h5 : getTagValue event "action" ≠ "upgrade") (h5b : getTagValue event "action" ≠ "reboot") :
    ValidateHyperSignalEvent env ctx event =
      (true, "hyperqube: 'action' tag must be either 'upgrade' or 'reboot'") := by
  unfold ValidateHyperSignalEvent
  simp [hk, h1, h2, h3, h4, h5, h5b]

theorem signal_reject_reboot (env : Environ) (ctx : Context) (event : Event)
    (hk : event.Kind = 33321) (h1 : GetAuthed ctx ≠ "")
    (h2 : isAuthorizedIn (GetAuthed ctx) (Split (getEnv env "AUTHORIZED_PUBKEYS" "") ',') = true)
    (h3 : hasTagWithValue event "d" "hyperqube" = true)
    (h4 : firstMissingTag event ["version", "hash", "network", "action"] = none)
    (h5 : getTagValue event "action" = "reboot")
    (h6 : hasTag event "genesis_url" = false ∨ hasTag event "required_by" = false) :
    ValidateHyperSignalEvent env ctx event =
      (true, "hyperqube: 'reboot' action requires 'genesis_url' and 'required_by' tags") := by
  unfold ValidateHyperSignalEvent
  rcases h6 with h6 | h6 <;> simp [hk, h1, h2, h3, h4, h5, h6]

theorem signal_reject_content (env : Environ) (ctx : Context) (event : Event)
    (hk : event.Kind = 33321) (h1 : GetAuthed ctx ≠ "")
    (h2 : isAuthorizedIn (GetAuthed ctx) (Split (getEnv env "AUTHORIZED_PUBKEYS" "") ',') = true)
    (h3 : hasTagWithValue event "d" "hyperqube" = true)
    (h4 : firstMissingTag event ["version", "hash", "network", "action"] = none)
    (h5 : getTagValue event "action" = "upgrade" ∨ getTagValue event "action" = "reboot")
    (h6 : getTagValue event "action" = "reboot" →
      hasTag event "genesis_url" = true ∧ hasTag event "required_by" = true)
    (h7 : len event.Content = 0) :
    ValidateHyperSignalEvent env ctx event =
      (true, "hyperqube: content must be a human-readable string") := by
  unfold ValidateHyperSignalEvent
  rcases h5 with h5 | h5
  · simp [hk, h1, h2, h3, h4, h5, h7]
  · simp [hk, h1, h2, h3, h4, h5, h6 h5, h7]

/-! ### Properties of the Signal Event Validator -/

/-- C2: for an event of kind 33321, `ValidateHyperSignalEvent` returns
`(false, "")` exactly when the seven rules hold (authenticated; identity among
the comma-separated pieces of the roster string; a `d` tag with value
`hyperqube`; tags named version, hash, network and action; `getTagValue` of
`action` is `upgrade` or `reboot`; `genesis_url` and `required_by` present when
it is `reboot`; content non-empty). For an event of any other kind it returns
`(false, "")`. -/
theorem validateHyperSignalEvent_accepts_iff (env : Environ) (ctx : Context) (event : Event) :
    (event.Kind = 33321 →
      (ValidateHyperSignalEvent env ctx event = (false, "") ↔
        GetAuthed ctx ≠ "" ∧
        GetAuthed ctx ∈ Split (rosterConfig env) ',' ∧
        TagNamedWithValue event "d" "hyperqube" ∧
        (∀ name ∈ ["version", "hash", "network", "action"], TagNamed event name) ∧
        (getTagValue event "action" = "upgrade" ∨ getTagValue event "action" = "reboot") ∧
        (getTagValue event "action" = "reboot" →
          TagNamed event "genesis_url" ∧ TagNamed event "required_by") ∧
        event.Content ≠ "")) ∧
    (event.Kind ≠ 33321 → ValidateHyperSignalEvent env ctx event = (false, "")) := by
  constructor
  · intro hk
    rw [signal_accepts_iff_tests env ctx event hk]
    simp only [isAuthorizedIn_iff, hasTagWithValue_iff, firstMissingTag_eq_none_iff, hasTag_iff,
      rosterConfig, ne_eq, len_eq_zero_iff]
  · exact signal_other_kind env ctx event

/-- C2 at a well-formed `upgrade` event published by the roster member `k2`,
and at an event of kind 1. -/
theorem validateHyperSignalEvent_accepts_iff_witness :
    ValidateHyperSignalEvent (envWithRoster "k1,k2") ⟨"k2"⟩
        (mkEvent 33321 upgradeTags "release notes") = (false, "") ∧
    ValidateHyperSignalEvent (envWithRoster "k1,k2") ⟨""⟩ (mkEvent 1 [] "") = (false, "") :=
  ⟨((validateHyperSignalEvent_accepts_iff (envWithRoster "k1,k2") ⟨"k2"⟩
      (mkEvent 33321 upgradeTags "release notes")).1 rfl).mpr
      ⟨by decide, by decide, by decide, by decide, by decide, by decide, by decide⟩,
   (validateHyperSignalEvent_accepts_iff (envWithRoster "k1,k2") ⟨""⟩ (mkEvent 1 [] "")).2
      (by decide)⟩

/-- C3: when `ValidateHyperSignalEvent` rejects an event of kind 33321 the
reason is the message of the first rule that fails, in the order
authentication, authorization, `d` tag, required tags (naming the first
missing one of version, hash, network, action), action value, reboot tags,
content. In particular an unauthenticated event gets the auth-required
message whatever its tags are. -/
theorem validateHyperSignalEvent_first_failure (env : Environ) (ctx : Context) (event : Event)
    (hk : event.Kind = 33321) :
    (GetAuthed ctx = "" →
      ValidateHyperSignalEvent env ctx event =
        (true, "auth-required: publishing Kind 33321 requires authentication")) ∧
    (GetAuthed ctx ≠ "" → GetAuthed ctx ∉ Split (rosterConfig env) ',' →
      ValidateHyperSignalEvent env ctx event =
        (true, "restricted: your public key is not authorized to publish Kind 33321 events")) ∧
    (GetAuthed ctx ≠ "" → GetAuthed ctx ∈ Split (rosterConfig env) ',' →
      ¬ TagNamedWithValue event "d" "hyperqube" →
      ValidateHyperSignalEvent env ctx event =
        (true, "hyperqube: missing required 'd' tag with value 'hyperqube'")) ∧
    (GetAuthed ctx ≠ "" → GetAuthed ctx ∈ Split (rosterConfig env) ',' →
      TagNamedWithValue event "d" "hyperqube" →
      ∀ (before : List String) (name : String) (after : List String),
        ["version", "hash", "network", "action"] = before ++ name :: after →
        (∀ earlier ∈ before, TagNamed event earlier) → ¬ TagNamed event name →
        ValidateHyperSignalEvent env ctx event =
          (true, "hyperqube: missing required '" ++ name ++ "' tag")) ∧
    (GetAuthed ctx ≠ "" → GetAuthed ctx ∈ Split (rosterConfig env) ',' →
      TagNamedWithValue event "d" "hyperqube" →
      (∀ name ∈ ["version", "hash", "network", "action"], TagNamed event name) →
      getTagValue event "action" ≠ "upgrade" → getTagValue event "action" ≠ "reboot" →
      ValidateHyperSignalEvent env ctx event =
        (true, "hyperqube: 'action' tag must be either 'upgrade' or 'reboot'")) ∧
    (GetAuthed ctx ≠ "" → GetAuthed ctx ∈ Split (rosterConfig env) ',' →
      TagNamedWithValue event "d" "hyperqube" →
      (∀ name ∈ ["version", "hash", "network", "action"], TagNamed event name) →
      getTagValue event "action" = "reboot" →
      ¬ (TagNamed event "genesis_url" ∧ TagNamed event "required_by") →
      ValidateHyperSignalEvent env ctx event =
        (true, "hyperqube: 'reboot' action requires 'genesis_url' and 'required_by' tags")) ∧
    (GetAuthed ctx ≠ "" → GetAuthed ctx ∈ Split (rosterConfig env) ',' →
      TagNamedWithValue event "d" "hyperqube" →
      (∀ name ∈ ["version", "hash", "network", "action"], TagNamed event name) →
      (getTagValue event "action" = "upgrade" ∨ getTagValue event "action" = "reboot") →
      (getTagValue event "action" = "reboot" →
        TagNamed event "genesis_url" ∧ TagNamed event "required_by") →
      event.Content = "" →
      ValidateHyperSignalEvent env ctx event =
        (true, "hyperqube: content must be a human-readable string")) := by
  have auth : GetAuthed ctx ∈ Split (rosterConfig env) ',' →
      isAuthorizedIn (GetAuthed ctx) (Split (getEnv env "AUTHORIZED_PUBKEYS" "") ',') = true :=
    (isAuthorizedIn_iff _ _).mpr
  have dtag : TagNamedWithValue event "d" "hyperqube" →
      hasTagWithValue event "d" "hyperqube" = true := (hasTagWithValue_iff _ _ _).mpr
  have req : (∀ name ∈ ["version", "hash", "network", "action"], TagNamed event name) →
      firstMissingTag event ["version", "hash", "network", "action"] = none :=
    fun h => (firstMissingTag_eq_none_iff _ _).mpr (fun n hn => (hasTag_iff _ _).mpr (h n hn))
  refine ⟨?_, ?_, ?_, ?_, ?_, ?_, ?_⟩
  · exact signal_reject_unauthenticated env ctx event hk
  · intro h1 h2
    refine signal_reject_unauthorized env ctx event hk h1 ?_
    rw [← Bool.not_eq_true, isAuthorizedIn_iff]
    exact h2
  · intro h1 h2 h3
    refine signal_reject_d env ctx event hk h1 (auth h2) ?_
    rw [← Bool.not_eq_true, hasTagWithValue_iff]
    exact h3
  · intro h1 h2 h3 before name after hsplit hbefore hname
    exact signal_reject_missing env ctx event name hk h1 (auth h2) (dtag h3)
      ((firstMissingTag_eq_some_iff event _ name).mpr
        ⟨before, after, hsplit, fun m hm => (hasTag_iff _ _).mpr (hbefore m hm),
          (hasTag_eq_false_iff _ _).mpr hname⟩)
  · intro h1 h2 h3 h4 h5 h5b
    exact signal_reject_action env ctx event hk h1 (auth h2) (dtag h3) (req h4) h5 h5b
  · intro h1 h2 h3 h4 h5 h6
    refine signal_reject_reboot env ctx event hk h1 (auth h2) (dtag h3) (req h4) h5 ?_
    rw [hasTag_eq_false_iff, hasTag_eq_false_iff]
    exact not_and_or.mp h6
  · intro h1 h2 h3 h4 h5 h6 h7
    exact signal_reject_content env ctx event hk h1 (auth h2) (dtag h3) (req h4) h5
      (fun h => ⟨(hasTag_iff _ _).mpr (h6 h).1, (hasTag_iff _ _).mpr (h6 h).2⟩)
      ((len_eq_zero_iff _).mpr h7)

/-- C3 at an event that is unauthenticated and also lacks the `d` tag: the
reason is the auth-required message; and at an authorized event with `d`,
`version` but no `hash`: the reason names `hash`. -/
theorem validateHyperSignalEvent_first_failure_witness :
    ValidateHyperSignalEvent (envWithRoster "k1,k2") ⟨""⟩ (mkEvent 33321 [] "") =
      (true, "auth-required: publishing Kind 33321 requires authentication") ∧
    ValidateHyperSignalEvent (envWithRoster "k1,k2") ⟨"k1"⟩
        (mkEvent 33321 [["d", "hyperqube"], ["version", "1"], ["action"]] "") =
      (true, "hyperqube: missing required 'hash' tag") :=
  ⟨(validateHyperSignalEvent_first_failure (envWithRoster "k1,k2") ⟨""⟩
      (mkEvent 33321 [] "") rfl).1 rfl,
   (validateHyperSignalEvent_first_failure (envWithRoster "k1,k2") ⟨"k1"⟩
      (mkEvent 33321 [["d", "hyperqube"], ["version", "1"], ["action"]] "") rfl).2.2.2.1
      (by decide) (by decide) (by decide) ["version"] "hash" ["network", "action"] rfl
      (by decide) (by decide)⟩

/-- C4: an event of kind 33321 whose requester's identity is not one of the
comma-separated pieces of the roster string is rejected whatever its tags and
content are; when the identity is non-empty the reason is the `restricted`
message. -/
theorem validateHyperSignalEvent_rejects_non_member (env : Environ) (ctx : Context)
    (event : Event) (hk : event.Kind = 33321)
    (hnot : GetAuthed ctx ∉ Split (rosterConfig env) ',') :
    (ValidateHyperSignalEvent env ctx event).1 = true ∧
    (GetAuthed ctx ≠ "" →
      ValidateHyperSignalEvent env ctx event =
        (true, "restricted: your public key is not authorized to publish Kind 33321 events")) := by
  have h2 : isAuthorizedIn (GetAuthed ctx)
      (Split (getEnv env "AUTHORIZED_PUBKEYS" "") ',') = false := by
    rw [← Bool.not_eq_true, isAuthorizedIn_iff]
    exact hnot
  by_cases h1 : GetAuthed ctx = ""
  · refine ⟨?_, fun h => absurd h1 h⟩
    rw [signal_reject_unauthenticated env ctx event hk h1]
  · have h := signal_reject_unauthorized env ctx event hk h1 h2
    exact ⟨by rw [h], fun _ => h⟩

/-- C4 at Scenario A: the tags and content are valid, the requester `k3` is
not in the roster `k1,k2`. -/
theorem validateHyperSignalEvent_rejects_non_member_witness :
    ValidateHyperSignalEvent (envWithRoster "k1,k2") ⟨"k3"⟩
        (mkEvent 33321 upgradeTags "release notes") =
      (true, "restricted: your public key is not authorized to publish Kind 33321 events") :=
  (validateHyperSignalEvent_rejects_non_member (envWithRoster "k1,k2") ⟨"k3"⟩
    (mkEvent 33321 upgradeTags "release notes") rfl (by decide)).2 (by decide)

/-- C5 as stated fails: the requester `k2` is a member of the roster `k1,k2`
and every tag is correct, yet the event is rejected, because its content is
empty. -/
theorem validateHyperSignalEvent_accepts_member_counterexample :
    (mkEvent 33321 upgradeTags "").Kind = 33321 ∧
    GetAuthed ⟨"k2"⟩ ≠ "" ∧
    GetAuthed ⟨"k2"⟩ ∈ Split (rosterConfig (envWithRoster "k1,k2")) ',' ∧
    TagNamedWithValue (mkEvent 33321 upgradeTags "") "d" "hyperqube" ∧
    (∀ name ∈ ["version", "hash", "network", "action"],
      TagNamed (mkEvent 33321 upgradeTags "") name) ∧
    getTagValue (mkEvent 33321 upgradeTags "") "action" = "upgrade" ∧
    ValidateHyperSignalEvent (envWithRoster "k1,k2") ⟨"k2"⟩ (mkEvent 33321 upgradeTags "") =
      (true, "hyperqube: content must be a human-readable string") := by
  decide

/-- C5, amended: an event of kind 33321 whose requester is authenticated as a
roster member, whose tags are all correct (a `d` tag with value `hyperqube`;
version, hash, network and action present; action value `upgrade` or `reboot`;
`genesis_url` and `required_by` present when it is `reboot`) and whose content
is non-empty is accepted: the outcome is `(false, "")`. -/
theorem validateHyperSignalEvent_accepts_member (env : Environ) (ctx : Context)
    (event : Event) (hk : event.Kind = 33321)
    (hauth : GetAuthed ctx ≠ "")
    (hmember : GetAuthed ctx ∈ Split (rosterConfig env) ',')
    (hd : TagNamedWithValue event "d" "hyperqube")
    (hrequired : ∀ name ∈ ["version", "hash", "network", "action"], TagNamed event name)
    (haction : getTagValue event "action" = "upgrade" ∨ getTagValue event "action" = "reboot")
    (hreboot : getTagValue event "action" = "reboot" →
      TagNamed event "genesis_url" ∧ TagNamed event "required_by")
    (hcontent : event.Content ≠ "") :
    ValidateHyperSignalEvent env ctx event = (false, "") := by
  rw [signal_accepts_iff_tests env ctx event hk]
  refine ⟨hauth, (isAuthorizedIn_iff _ _).mpr hmember, (hasTagWithValue_iff _ _ _).mpr hd,
    ?_, haction, ?_, ?_⟩
  · exact (firstMissingTag_eq_none_iff _ _).mpr
      (fun n hn => (hasTag_iff _ _).mpr (hrequired n hn))
  · intro h
    exact ⟨(hasTag_iff _ _).mpr (hreboot h).1, (hasTag_iff _ _).mpr (hreboot h).2⟩
  · intro h
    exact hcontent ((len_eq_zero_iff _).mp h)

/-- C5, amended, at a `reboot` event with both reboot tags, published by the
roster member `k1`. -/
theorem validateHyperSignalEvent_accepts_member_witness :
    ValidateHyperSignalEvent (envWithRoster "k1,k2") ⟨"k1"⟩
        (mkEvent 33321
          [["d", "hyperqube"], ["version", "1.2.0"], ["hash", "abc"], ["network", "main"],
           ["action", "reboot"], ["genesis_url", "https://example.org/g.json"],
           ["required_by", "1700000000"]] "reboot the network") = (false, "") :=
  validateHyperSignalEvent_accepts_member (envWithRoster "k1,k2") ⟨"k1"⟩ _ rfl
    (by decide) (by decide) (by decide) (by decide) (by decide) (by decide) (by decide)

/-- C6: when the roster configuration string is `""` nobody is authorized:
every event of kind 33321 is rejected, whatever the requester's identity is.
Splitting `""` on commas gives the single piece `""`; the empty identity is
rejected by the authentication rule and every other identity by the
authorization rule. -/
theorem validateHyperSignalEvent_empty_roster (env : Environ) (ctx : Context) (event : Event)
    (hk : event.Kind = 33321) (hr : rosterConfig env = "") :
    (ValidateHyperSignalEvent env ctx event).1 = true ∧
    Split (rosterConfig env) ',' = [""] ∧
    (GetAuthed ctx = "" →
      ValidateHyperSignalEvent env ctx event =
        (true, "auth-required: publishing Kind 33321 requires authentication")) ∧
    (GetAuthed ctx ≠ "" →
      ValidateHyperSignalEvent env ctx event =
        (true, "restricted: your public key is not authorized to publish Kind 33321 events")) := by
  have hs : Split (rosterConfig env) ',' = [""] := by
    rw [hr]
    rfl
  have h2 : GetAuthed ctx ≠ "" →
      isAuthorizedIn (GetAuthed ctx) (Split (getEnv env "AUTHORIZED_PUBKEYS" "") ',') = false := by
    intro h1
    rw [← Bool.not_eq_true, isAuthorizedIn_iff]
    have hs2 : Split (getEnv env "AUTHORIZED_PUBKEYS" "") ',' = [""] := hs
    rw [hs2]
    simpa using h1
  refine ⟨?_, hs, signal_reject_unauthenticated env ctx event hk, ?_⟩
  · by_cases h1 : GetAuthed ctx = ""
    · rw [signal_reject_unauthenticated env ctx event hk h1]
    · rw [signal_reject_unauthorized env ctx event hk h1 (h2 h1)]
  · intro h1
    exact signal_reject_unauthorized env ctx event hk h1 (h2 h1)

/-- C6 at a well-formed event: with `AUTHORIZED_PUBKEYS` set to `""` the
requester `k1` is rejected, and with the option not set at all the
unauthenticated requester is rejected. -/
theorem validateHyperSignalEvent_empty_roster_witness :
    ValidateHyperSignalEvent (envWithRoster "") ⟨"k1"⟩
        (mkEvent 33321 upgradeTags "release notes") =
      (true, "restricted: your public key is not authorized to publish Kind 33321 events") ∧
    (ValidateHyperSignalEvent (fun _ => none) ⟨""⟩
        (mkEvent 33321 upgradeTags "release notes")).1 = true :=
  ⟨(validateHyperSignalEvent_empty_roster (envWithRoster "") ⟨"k1"⟩
      (mkEvent 33321 upgradeTags "release notes") rfl rfl).2.2.2 (by decide),
   (validateHyperSignalEvent_empty_roster (fun _ => none) ⟨""⟩
      (mkEvent 33321 upgradeTags "release notes") rfl rfl).1⟩

/-! ## The Manager Event Validator -/

/-! ### The tests of `ValidateQubeManagerEvent`, one at a time -/

theorem manager_other_kind (env : Environ) (ctx : Context) (event : Event)
    (hk : event.Kind ≠ 3333) :
    ValidateQubeManagerEvent env ctx event = (false, "") := by
  unfold ValidateQubeManagerEvent
  simp [hk]

theorem manager_reject_unauthenticated (env : Environ) (ctx : Context) (event : Event)
    (hk : event.Kind = 3333) (h1 : GetAuthed ctx = "") :
    ValidateQubeManagerEvent env ctx event =
      (true, "auth-required: publishing Kind 3333 requires authentication") := by
  unfold ValidateQubeManagerEvent
  simp [hk, h1]

theorem manager_reject_missing (env : Environ) (ctx : Context) (event : Event) (tag : String)
    (hk : event.Kind = 3333) (h1 : GetAuthed ctx ≠ "")
    (h2 : firstMissingTag event
      ["a", "version", "network", "action", "status", "node_id", "action_at"] = some tag) :
    ValidateQubeManagerEvent env ctx event =
      (true, "qube-manager: missing required '" ++ tag ++ "' tag") := by
  unfold ValidateQubeManagerEvent
  simp [hk, h1, h2]

theorem manager_reject_a (env : Environ) (ctx : Context) (event : Event)
    (hk : event.Kind = 3333) (h1 : GetAuthed ctx ≠ "")
    (h2 : firstMissingTag event
      ["a", "version", "network", "action", "status", "node_id", "action_at"] = none)
    (h3 : aTagMalformed (Split (getTagValue event "a") ':') = true) :
    ValidateQubeManagerEvent env ctx event =
      (true, "qube-manager: invalid 'a' tag format (should be '33321:<64_hex_pubkey>:hyperqube')") := by
  unfold ValidateQubeManagerEvent
  simp [hk, h1, h2, h3]

theorem manager_reject_action (env : Environ) (ctx : Context) (event : Event)
    (hk : event.Kind = 3333) (h1 : GetAuthed ctx ≠ "")
    (h2 : firstMissingTag event
      ["a", "version", "network", "action", "status", "node_id", "action_at"] = none)
    (h3 : aTagMalformed (Split (getTagValue event "a") ':') = false)
    (h4 : getTagValue event "action" ≠ "upgrade") (h4b : getTagValue event "action" ≠ "reboot") :
    ValidateQubeManagerEvent env ctx event =
      (true, "qube-manager: 'action' tag must be either 'upgrade' or 'reboot'") := by
  unfold ValidateQubeManagerEvent
  simp [hk, h1, h2, h3, h4, h4b]

theorem manager_reject_status (env : Environ) (ctx : Context) (event : Event)
    (hk : event.Kind = 3333) (h1 : GetAuthed ctx ≠ "")
    (h2 : firstMissingTag event
      ["a", "version", "network", "action", "status", "node_id", "action_at"] = none)
    (h3 : aTagMalformed (Split (getTagValue event "a") ':') = false)
    (h4 : getTagValue event "action" = "upgrade" ∨ getTagValue event "action" = "reboot")
    (h5 : getTagValue event "status" ≠ "success") (h5b : getTagValue event "status" ≠ "failure") :
    ValidateQubeManagerEvent env ctx event =
      (true, "qube-manager: 'status' tag should be 'success' or 'failure'") := by
  unfold ValidateQubeManagerEvent
  rcases h4 with h4 | h4 <;> simp [hk, h1, h2, h3, h4, h5, h5b]

theorem manager_reject_error (env : Environ) (ctx : Context) (event : Event)
    (hk : event.Kind = 3333) (h1 : GetAuthed ctx ≠ "")
    (h2 : firstMissingTag event
      ["a", "version", "network", "action", "status", "node_id", "action_at"] = none)
    (h3 : aTagMalformed (Split (getTagValue event "a") ':') = false)
    (h4 : getTagValue event "action" = "upgrade" ∨ getTagValue event "action" = "reboot")
    (h5 : getTagValue event "status" = "failure") (h6 : hasTag event "error" = false) :
    ValidateQubeManagerEvent env ctx event =
      (true, "qube-manager: 'failure' status requires 'error' tag") := by
  unfold ValidateQubeManagerEvent
  rcases h4 with h4 | h4 <;> simp [hk, h1, h2, h3, h4, h5, h6]

theorem manager_reject_content (env : Environ) (ctx : Context) (event : Event)
    (hk : event.Kind = 3333) (h1 : GetAuthed ctx ≠ "")
    (h2 : firstMissingTag event
      ["a", "version", "network", "action", "status", "node_id", "action_at"] = none)
    (h3 : aTagMalformed (Split (getTagValue event "a") ':') = false)
    (h4 : getTagValue event "action" = "upgrade" ∨ getTagValue event "action" = "reboot")
    (h5 : getTagValue event "status" = "success" ∨ getTagValue event "status" = "failure")
    (h6 : getTagValue event "status" = "failure" → hasTag event "error" = true)
    (h7 : len event.Content = 0) :
    ValidateQubeManagerEvent env ctx event =
      (true, "qube-manager: content must be a human-readable string") := by
  unfold ValidateQubeManagerEvent
  rcases h4 with h4 | h4 <;> rcases h5 with h5 | h5 <;>
    simp [hk, h1, h2, h3, h4, h5, h7] <;> simp [h6 h5]

theorem manager_accept (env : Environ) (ctx : Context) (event : Event)
    (hk : event.Kind = 3333) (h1 : GetAuthed ctx ≠ "")
    (h2 : firstMissingTag event
      ["a", "version", "network", "action", "status", "node_id", "action_at"] = none)
    (h3 : aTagMalformed (Split (getTagValue event "a") ':') = false)
    (h4 : getTagValue event "action" = "upgrade" ∨ getTagValue event "action" = "reboot")
    (h5 : getTagValue event "status" = "success" ∨ getTagValue event "status" = "failure")
    (h6 : getTagValue event "status" = "failure" → hasTag event "error" = true)
    (h7 : len event.Content ≠ 0) :
    ValidateQubeManagerEvent env ctx event = (false, "") := by
  unfold ValidateQubeManagerEvent
  rcases h4 with h4 | h4 <;> rcases h5 with h5 | h5 <;>
    simp [hk, h1, h2, h3, h4, h5, h7] <;> simp [h6 h5]

/-- The outcome of `ValidateQubeManagerEvent` on an event of kind 3333 is
`(false, "")` exactly when none of its seven tests fires. -/
theorem manager_accepts_iff_tests (env : Environ) (ctx : Context) (event : Event)
    (hk : event.Kind = 3333) :
    ValidateQubeManagerEvent env ctx event = (false, "") ↔
      GetAuthed ctx ≠ "" ∧
      firstMissingTag event
        ["a", "version", "network", "action", "status", "node_id", "action_at"] = none ∧
      aTagMalformed (Split (getTagValue event "a") ':') = false ∧
      (getTagValue event "action" = "upgrade" ∨ getTagValue event "action" = "reboot") ∧
      (getTagValue event "status" = "success" ∨ getTagValue event "status" = "failure") ∧
      (getTagValue event "status" = "failure" → hasTag event "error" = true) ∧
      len event.Content ≠ 0 := by
  constructor
  · intro hacc
    by_cases h1 : GetAuthed ctx = ""
    · rw [manager_reject_unauthenticated env ctx event hk h1] at hacc
      simp at hacc
    cases h2 : firstMissingTag event
        ["a", "version", "network", "action", "status", "node_id", "action_at"] with
    | some tag =>
      rw [manager_reject_missing env ctx event tag hk h1 h2] at hacc
      simp at hacc
    | none =>
      cases h3 : aTagMalformed (Split (getTagValue event "a") ':') with
      | true =>
        rw [manager_reject_a env ctx event hk h1 h2 h3] at hacc
        simp at hacc
      | false =>
        by_cases h4 : getTagValue event "action" = "upgrade" ∨ getTagValue event "action" = "reboot"
        swap
        · rw [not_or] at h4
          rw [manager_reject_action env ctx event hk h1 h2 h3 h4.1 h4.2] at hacc
          simp at hacc
        by_cases h5 : getTagValue event "status" = "success" ∨
            getTagValue event "status" = "failure"
        swap
        · rw [not_or] at h5
          rw [manager_reject_status env ctx event hk h1 h2 h3 h4 h5.1 h5.2] at hacc
          simp at hacc
        by_cases h6 : getTagValue event "status" = "failure" → hasTag event "error" = true
        swap
        · rw [Classical.not_imp] at h6
          rw [manager_reject_error env ctx event hk h1 h2 h3 h4 h6.1 (by simpa using h6.2)] at hacc
          simp at hacc
        by_cases h7 : len event.Content = 0
        · rw [manager_reject_content env ctx event hk h1 h2 h3 h4 h5 h6 h7] at hacc
          simp at hacc
        · exact ⟨h1, rfl, rfl, h4, h5, h6, h7⟩
  · rintro ⟨h1, h2, h3, h4, h5, h6, h7⟩
    exact manager_accept env ctx event hk h1 h2 h3 h4 h5 h6 h7

/-! ### Properties of the Manager Event Validator -/

/-- C7: for an event of kind 3333, `ValidateQubeManagerEvent` returns
`(false, "")` exactly when the seven rules hold (authenticated; tags named a,
version, network, action, status, node_id and action_at; the value of `a`
splits on `:` into the three parts `33321`, a part of length 64 (the `len`
of the source) and `hyperqube`; action is `upgrade` or `reboot`; status is `success` or
`failure`; an `error` tag when status is `failure`; content non-empty). For an
event of any other kind it returns `(false, "")`. Scenario D: an authenticated
event with the seven tags, `a` of the form `33321:<64 hex digits>:hyperqube`,
action `upgrade`, status `success` and non-empty content is accepted. -/
theorem validateQubeManagerEvent_accepts_iff (env : Environ) (ctx : Context) (event : Event) :
    (event.Kind = 3333 →
      (ValidateQubeManagerEvent env ctx event = (false, "") ↔
        GetAuthed ctx ≠ "" ∧
        (∀ name ∈ ["a", "version", "network", "action", "status", "node_id", "action_at"],
          TagNamed event name) ∧
        (∃ key, Split (getTagValue event "a") ':' = ["33321", key, "hyperqube"] ∧
          len key = 64) ∧
        (getTagValue event "action" = "upgrade" ∨ getTagValue event "action" = "reboot") ∧
        (getTagValue event "status" = "success" ∨ getTagValue event "status" = "failure") ∧
        (getTagValue event "status" = "failure" → TagNamed event "error") ∧
        event.Content ≠ "")) ∧
    (event.Kind ≠ 3333 → ValidateQubeManagerEvent env ctx event = (false, "")) ∧
    (event.Kind = 3333 → GetAuthed ctx ≠ "" →
      (∀ name ∈ ["a", "version", "network", "action", "status", "node_id", "action_at"],
        TagNamed event name) →
      ∀ key : String, key.length = 64 → (∀ c ∈ key.data, isHexChar c = true) →
        getTagValue event "a" = "33321:" ++ key ++ ":hyperqube" →
        getTagValue event "action" = "upgrade" → getTagValue event "status" = "success" →
        event.Content ≠ "" →
        ValidateQubeManagerEvent env ctx event = (false, "")) := by
  have main : event.Kind = 3333 →
      (ValidateQubeManagerEvent env ctx event = (false, "") ↔
        GetAuthed ctx ≠ "" ∧
        (∀ name ∈ ["a", "version", "network", "action", "status", "node_id", "action_at"],
          TagNamed event name) ∧
        (∃ key, Split (getTagValue event "a") ':' = ["33321", key, "hyperqube"] ∧
          len key = 64) ∧
        (getTagValue event "action" = "upgrade" ∨ getTagValue event "action" = "reboot") ∧
        (getTagValue event "status" = "success" ∨ getTagValue event "status" = "failure") ∧
        (getTagValue event "status" = "failure" → TagNamed event "error") ∧
        event.Content ≠ "") := by
    intro hk
    rw [manager_accepts_iff_tests env ctx event hk]
    simp only [firstMissingTag_eq_none_iff, hasTag_iff, aTagMalformed_eq_false_iff, ne_eq,
      len_eq_zero_iff]
  refine ⟨main, manager_other_kind env ctx event, ?_⟩
  intro hk hauth htags key hlen hhex ha haction hstatus hcontent
  refine (main hk).mpr ⟨hauth, htags, ⟨key, ?_, ?_⟩, Or.inl haction, Or.inl hstatus, ?_, hcontent⟩
  · rw [ha]
    exact split_reference key hhex
  · rw [len_of_hex key hhex, hlen]
  · intro hf
    rw [hstatus] at hf
    exact absurd hf (by decide)

/-- C7 at Scenario D, through the equivalence and through the scenario's own
statement, and at an event of kind 1. -/
theorem validateQubeManagerEvent_accepts_iff_witness :
    ValidateQubeManagerEvent (envWithRoster "") ⟨"k9"⟩
        (mkEvent 3333 managerTags "node upgraded") = (false, "") ∧
    ValidateQubeManagerEvent (envWithRoster "") ⟨"k9"⟩
        (mkEvent 3333 managerTags "x") = (false, "") ∧
    ValidateQubeManagerEvent (envWithRoster "") ⟨""⟩ (mkEvent 1 [] "") = (false, "") :=
  ⟨((validateQubeManagerEvent_accepts_iff (envWithRoster "") ⟨"k9"⟩
      (mkEvent 3333 managerTags "node upgraded")).1 rfl).mpr
      ⟨by decide, by decide, ⟨sampleKey, by decide, by decide⟩, by decide, by decide,
        by decide, by decide⟩,
   (validateQubeManagerEvent_accepts_iff (envWithRoster "") ⟨"k9"⟩
      (mkEvent 3333 managerTags "x")).2.2 rfl (by decide) (by decide) sampleKey
      (by decide) (by decide) (by decide) (by decide) (by decide) (by decide),
   (validateQubeManagerEvent_accepts_iff (envWithRoster "") ⟨""⟩ (mkEvent 1 [] "")).2.1
      (by decide)⟩

/-- C8: when `ValidateQubeManagerEvent` rejects an event of kind 3333 the
reason is the message of the first rule that fails, in the order
authentication, required tags (naming the first missing one of a, version,
network, action, status, node_id, action_at), format of `a`, action value,
status value, error tag on failure, content. In particular an unauthenticated
event gets the auth-required message whatever its tags and content are. -/
theorem validateQubeManagerEvent_first_failure (env : Environ) (ctx : Context) (event : Event)
    (hk : event.Kind = 3333) :
    (GetAuthed ctx = "" →
      ValidateQubeManagerEvent env ctx event =
        (true, "auth-required: publishing Kind 3333 requires authentication")) ∧
    (GetAuthed ctx ≠ "" →
      ∀ (before : List String) (name : String) (after : List String),
        ["a", "version", "network", "action", "status", "node_id", "action_at"] =
          before ++ name :: after →
        (∀ earlier ∈ before, TagNamed event earlier) → ¬ TagNamed event name →
        ValidateQubeManagerEvent env ctx event =
          (true, "qube-manager: missing required '" ++ name ++ "' tag")) ∧
    (GetAuthed ctx ≠ "" →
      (∀ name ∈ ["a", "version", "network", "action", "status", "node_id", "action_at"],
        TagNamed event name) →
      ¬ (∃ key, Split (getTagValue event "a") ':' = ["33321", key, "hyperqube"] ∧
          len key = 64) →
      ValidateQubeManagerEvent env ctx event =
        (true, "qube-manager: invalid 'a' tag format (should be '33321:<64_hex_pubkey>:hyperqube')")) ∧
    (GetAuthed ctx ≠ "" →
      (∀ name ∈ ["a", "version", "network", "action", "status", "node_id", "action_at"],
        TagNamed event name) →
      (∃ key, Split (getTagValue event "a") ':' = ["33321", key, "hyperqube"] ∧
          len key = 64) →
      getTagValue event "action" ≠ "upgrade" → getTagValue event "action" ≠ "reboot" →
      ValidateQubeManagerEvent env ctx event =
        (true, "qube-manager: 'action' tag must be either 'upgrade' or 'reboot'")) ∧
    (GetAuthed ctx ≠ "" →
      (∀ name ∈ ["a", "version", "network", "action", "status", "node_id", "action_at"],
        TagNamed event name) →
      (∃ key, Split (getTagValue event "a") ':' = ["33321", key, "hyperqube"] ∧
          len key = 64) →
      (getTagValue event "action" = "upgrade" ∨ getTagValue event "action" = "reboot") →
      getTagValue event "status" ≠ "success" → getTagValue event "status" ≠ "failure" →
      ValidateQubeManagerEvent env ctx event =
        (true, "qube-manager: 'status' tag should be 'success' or 'failure'")) ∧
    (GetAuthed ctx ≠ "" →
      (∀ name ∈ ["a", "version", "network", "action", "status", "node_id", "action_at"],
        TagNamed event name) →
      (∃ key, Split (getTagValue event "a") ':' = ["33321", key, "hyperqube"] ∧
          len key = 64) →
      (getTagValue event "action" = "upgrade" ∨ getTagValue event "action" = "reboot") →
      getTagValue event "status" = "failure" → ¬ TagNamed event "error" →
      ValidateQubeManagerEvent env ctx event =
        (true, "qube-manager: 'failure' status requires 'error' tag")) ∧
    (GetAuthed ctx ≠ "" →
      (∀ name ∈ ["a", "version", "network", "action", "status", "node_id", "action_at"],
        TagNamed event name) →
      (∃ key, Split (getTagValue event "a") ':' = ["33321", key, "hyperqube"] ∧
          len key = 64) →
      (getTagValue event "action" = "upgrade" ∨ getTagValue event "action" = "reboot") →
      (getTagValue event "status" = "success" ∨ getTagValue event "status" = "failure") →
      (getTagValue event "status" = "failure" → TagNamed event "error") →
      event.Content = "" →
      ValidateQubeManagerEvent env ctx event =
        (true, "qube-manager: content must be a human-readable string")) := by
  have req : (∀ name ∈ ["a", "version", "network", "action", "status", "node_id", "action_at"],
        TagNamed event name) →
      firstMissingTag event
        ["a", "version", "network", "action", "status", "node_id", "action_at"] = none :=
    fun h => (firstMissingTag_eq_none_iff _ _).mpr (fun n hn => (hasTag_iff _ _).mpr (h n hn))
  have fmt : (∃ key, Split (getTagValue event "a") ':' = ["33321", key, "hyperqube"] ∧
        len key = 64) → aTagMalformed (Split (getTagValue event "a") ':') = false :=
    (aTagMalformed_eq_false_iff _).mpr
  refine ⟨?_, ?_, ?_, ?_, ?_, ?_, ?_⟩
  · exact manager_reject_unauthenticated env ctx event hk
  · intro h1 before name after hsplit hbefore hname
    exact manager_reject_missing env ctx event name hk h1
      ((firstMissingTag_eq_some_iff event _ name).mpr
        ⟨before, after, hsplit, fun m hm => (hasTag_iff _ _).mpr (hbefore m hm),
          (hasTag_eq_false_iff _ _).mpr hname⟩)
  · intro h1 h2 h3
    refine manager_reject_a env ctx event hk h1 (req h2) ?_
    rw [← Bool.not_eq_false, aTagMalformed_eq_false_iff]
    exact h3
  · intro h1 h2 h3 h4 h4b
    exact manager_reject_action env ctx event hk h1 (req h2) (fmt h3) h4 h4b
  · intro h1 h2 h3 h4 h5 h5b
    exact manager_reject_status env ctx event hk h1 (req h2) (fmt h3) h4 h5 h5b
  · intro h1 h2 h3 h4 h5 h6
    exact manager_reject_error env ctx event hk h1 (req h2) (fmt h3) h4 h5
      ((hasTag_eq_false_iff _ _).mpr h6)
  · intro h1 h2 h3 h4 h5 h6 h7
    exact manager_reject_content env ctx event hk h1 (req h2) (fmt h3) h4 h5
      (fun h => (hasTag_iff _ _).mpr (h6 h)) ((len_eq_zero_iff _).mpr h7)

/-- C8 at Scenario C, an unauthenticated event with valid tags and content,
and at an authenticated event with `a` and `version` but no `network`. -/
theorem validateQubeManagerEvent_first_failure_witness :
    ValidateQubeManagerEvent (envWithRoster "") ⟨""⟩
        (mkEvent 3333 managerTags "node upgraded") =
      (true, "auth-required: publishing Kind 3333 requires authentication") ∧
    ValidateQubeManagerEvent (envWithRoster "") ⟨"k9"⟩
        (mkEvent 3333 [["a", "x"], ["version", "1"], ["status"]] "") =
      (true, "qube-manager: missing required 'network' tag") :=
  ⟨(validateQubeManagerEvent_first_failure (envWithRoster "") ⟨""⟩
      (mkEvent 3333 managerTags "node upgraded") rfl).1 rfl,
   (validateQubeManagerEvent_first_failure (envWithRoster "") ⟨"k9"⟩
      (mkEvent 3333 [["a", "x"], ["version", "1"], ["status"]] "") rfl).2.1
      (by decide) ["a", "version"] "network" ["action", "status", "node_id", "action_at"] rfl
      (by decide) (by decide)⟩

/-- C9: `ValidateQubeManagerEvent` performs no roster check. For every event,
the outcome under two non-empty identities and two roster configurations is
the same; more generally the outcome depends on the identity only through
whether it is empty, and not at all on the environment. -/
theorem validateQubeManagerEvent_no_roster_check (env1 env2 : Environ) (ctx1 ctx2 : Context)
    (event : Event) :
    (GetAuthed ctx1 ≠ "" → GetAuthed ctx2 ≠ "" →
      ValidateQubeManagerEvent env1 ctx1 event = ValidateQubeManagerEvent env2 ctx2 event) ∧
    ((GetAuthed ctx1 = "" ↔ GetAuthed ctx2 = "") →
      ValidateQubeManagerEvent env1 ctx1 event = ValidateQubeManagerEvent env2 ctx2 event) := by
  have key : (GetAuthed ctx1 = "" ↔ GetAuthed ctx2 = "") →
      ValidateQubeManagerEvent env1 ctx1 event = ValidateQubeManagerEvent env2 ctx2 event := by
    intro h
    unfold ValidateQubeManagerEvent
    by_cases h1 : GetAuthed ctx1 = ""
    · simp [h1, h.mp h1]
    · have h2 : GetAuthed ctx2 ≠ "" := fun e => h1 (h.mpr e)
      simp [h1, h2]
  exact ⟨fun h1 h2 => key ⟨fun e => absurd e h1, fun e => absurd e h2⟩, key⟩

/-- C9 at Scenario D: the roster member `k1` and the identity `k9` under an
empty roster get the same outcome, acceptance. -/
theorem validateQubeManagerEvent_no_roster_check_witness :
    ValidateQubeManagerEvent (envWithRoster "k1") ⟨"k1"⟩
        (mkEvent 3333 managerTags "node upgraded") = (false, "") ∧
    ValidateQubeManagerEvent (envWithRoster "") ⟨"k9"⟩
        (mkEvent 3333 managerTags "node upgraded") = (false, "") :=
  ⟨by decide,
   ((validateQubeManagerEvent_no_roster_check (envWithRoster "k1") (envWithRoster "")
      ⟨"k1"⟩ ⟨"k9"⟩ (mkEvent 3333 managerTags "node upgraded")).1
      (by decide) (by decide)).symm.trans (by decide)⟩

/-! ## The Filter Access Gate -/

/-- C10: `RequireAuth` rejects exactly when the identity is the empty string;
the reason is then `"auth-required: this relay requires authentication to read
events"` and otherwise the outcome is `(false, "")`. The outcome is the same
for any two filters under the same identity. -/
theorem requireAuth_contract (env : Environ) (ctx : Context) (filter : Filter) :
    ((RequireAuth env ctx filter).1 = true ↔ GetAuthed ctx = "") ∧
    (GetAuthed ctx = "" →
      RequireAuth env ctx filter =
        (true, "auth-required: this relay requires authentication to read events")) ∧
    (GetAuthed ctx ≠ "" → RequireAuth env ctx filter = (false, "")) ∧
    (∀ filter2 : Filter, RequireAuth env ctx filter2 = RequireAuth env ctx filter) := by
  unfold RequireAuth
  by_cases h : GetAuthed ctx = ""
  · simp [h]
  · simp [h]

/-- C10 at Scenario E: the same filter is rejected without an identity and
accepted with one. -/
theorem requireAuth_contract_witness :
    RequireAuth (envWithRoster "") ⟨""⟩ emptyFilter =
      (true, "auth-required: this relay requires authentication to read events") ∧
    RequireAuth (envWithRoster "") ⟨"k9"⟩ emptyFilter = (false, "") :=
  ⟨(requireAuth_contract (envWithRoster "") ⟨""⟩ emptyFilter).2.1 rfl,
   (requireAuth_contract (envWithRoster "") ⟨"k9"⟩ emptyFilter).2.2.1 (by decide)⟩

/-! ## The chain of hooks and the shape of an outcome -/

theorem kind_reject_iff (env : Environ) (ctx : Context) (event : Event) :
    (ValidateKind env ctx event).1 = true ↔ (event.Kind ≠ 33321 ∧ event.Kind ≠ 3333) := by
  unfold ValidateKind
  split_ifs with h
  · simpa using h
  · simpa using h

theorem kind_accept (env : Environ) (ctx : Context) (event : Event)
    (h : event.Kind = 33321 ∨ event.Kind = 3333) :
    ValidateKind env ctx event = (false, "") := by
  unfold ValidateKind
  rcases h with h | h <;> simp [h]

theorem runRejectEvent_hooks (env : Environ) (ctx : Context) (event : Event) :
    runRejectEvent rejectEventHooks env ctx event =
      if (ValidateKind env ctx event).1 then (true, (ValidateKind env ctx event).2)
      else if (ValidateHyperSignalEvent env ctx event).1 then
        (true, (ValidateHyperSignalEvent env ctx event).2)
      else if (ValidateQubeManagerEvent env ctx event).1 then
        (true, (ValidateQubeManagerEvent env ctx event).2)
      else (false, "") := rfl

theorem append_ne_empty (a b : String) (h : a ≠ "") : a ++ b ≠ "" := by
  intro e
  have hl : (a ++ b).length = 0 := by rw [e]; rfl
  rw [String.length_append] at hl
  have ha : a.length = 0 := by omega
  apply h
  cases a with
  | mk data =>
    have hd : data = [] := List.length_eq_zero.mp ha
    rw [hd]

/-- The reason of the Kind Gate is empty exactly when it does not reject. -/
theorem kind_reason_empty_iff (env : Environ) (ctx : Context) (event : Event) :
    (ValidateKind env ctx event).2 = "" ↔ (ValidateKind env ctx event).1 = false := by
  unfold ValidateKind
  split_ifs with h
  · simp only [Bool.true_eq_false, iff_false]
    exact append_ne_empty _ _ (by decide)
  · simp

theorem append_eq_empty_iff (a b : String) : a ++ b = "" ↔ a = "" ∧ b = "" := by
  constructor
  · intro e
    by_cases ha : a = ""
    · subst ha
      have hb : b = "" := by simpa using e
      exact ⟨rfl, hb⟩
    · exact absurd e (append_ne_empty a b ha)
  · rintro ⟨ha, hb⟩
    subst ha hb
    rfl

/-- The reason of the Signal validator is empty exactly when it does not reject. -/
theorem signal_reason_empty_iff (env : Environ) (ctx : Context) (event : Event) :
    (ValidateHyperSignalEvent env ctx event).2 = "" ↔
      (ValidateHyperSignalEvent env ctx event).1 = false := by
  unfold ValidateHyperSignalEvent
  simp only []
  repeat' split
  all_goals simp [append_eq_empty_iff]

/-- The reason of the Manager validator is empty exactly when it does not reject. -/
theorem manager_reason_empty_iff (env : Environ) (ctx : Context) (event : Event) :
    (ValidateQubeManagerEvent env ctx event).2 = "" ↔
      (ValidateQubeManagerEvent env ctx event).1 = false := by
  unfold ValidateQubeManagerEvent
  simp only []
  repeat' split
  all_goals simp [append_eq_empty_iff]

/-- C11: the event pipeline is the chain `ValidateKind`,
`ValidateHyperSignalEvent`, `ValidateQubeManagerEvent`, first rejection wins.
For a kind outside 33321 and 3333 its outcome is the Kind Gate's rejection and
both validators return `(false, "")`; for kind 33321 its outcome is the Signal
validator's and the Manager validator returns `(false, "")`; for kind 3333 its
outcome is the Manager validator's and the Signal validator returns
`(false, "")`. No two of the three hooks reject the same event. -/
theorem pipeline_ownership (env : Environ) (ctx : Context) (event : Event) :
    (event.Kind ≠ 33321 → event.Kind ≠ 3333 →
      runRejectEvent rejectEventHooks env ctx event = ValidateKind env ctx event ∧
      (ValidateKind env ctx event).1 = true ∧
      ValidateHyperSignalEvent env ctx event = (false, "") ∧
      ValidateQubeManagerEvent env ctx event = (false, "")) ∧
    (event.Kind = 33321 →
      runRejectEvent rejectEventHooks env ctx event = ValidateHyperSignalEvent env ctx event ∧
      ValidateKind env ctx event = (false, "") ∧
      ValidateQubeManagerEvent env ctx event = (false, "")) ∧
    (event.Kind = 3333 →
      runRejectEvent rejectEventHooks env ctx event = ValidateQubeManagerEvent env ctx event ∧
      ValidateKind env ctx event = (false, "") ∧
      ValidateHyperSignalEvent env ctx event = (false, "")) ∧
    ¬ ((ValidateKind env ctx event).1 = true ∧
        (ValidateHyperSignalEvent env ctx event).1 = true) ∧
    ¬ ((ValidateKind env ctx event).1 = true ∧
        (ValidateQubeManagerEvent env ctx event).1 = true) ∧
    ¬ ((ValidateHyperSignalEvent env ctx event).1 = true ∧
        (ValidateQubeManagerEvent env ctx event).1 = true) := by
  have pair : ∀ o : Bool × String, (o.2 = "" ↔ o.1 = false) →
      (if o.1 then (true, o.2) else (false, "")) = o := by
    rintro ⟨b, r⟩ h
    cases b
    · simp only [iff_true] at h
      simp [h]
    · simp
  refine ⟨?_, ?_, ?_, ?_, ?_, ?_⟩
  · intro h1 h2
    have hs := signal_other_kind env ctx event h1
    have hm := manager_other_kind env ctx event h2
    have hkr := (kind_reject_iff env ctx event).mpr ⟨h1, h2⟩
    refine ⟨?_, hkr, hs, hm⟩
    rw [runRejectEvent_hooks, hkr]
    simp only [if_true]
    exact Prod.ext hkr.symm rfl
  · intro hk
    have hm := manager_other_kind env ctx event (by rw [hk]; decide)
    have hkind := kind_accept env ctx event (Or.inl hk)
    refine ⟨?_, hkind, hm⟩
    rw [runRejectEvent_hooks, hkind, hm]
    simpa using pair _ (signal_reason_empty_iff env ctx event)
  · intro hk
    have hs := signal_other_kind env ctx event (by rw [hk]; decide)
    have hkind := kind_accept env ctx event (Or.inr hk)
    refine ⟨?_, hkind, hs⟩
    rw [runRejectEvent_hooks, hkind, hs]
    simpa using pair _ (manager_reason_empty_iff env ctx event)
  · rintro ⟨h1, h2⟩
    have hk := (kind_reject_iff env ctx event).mp h1
    rw [signal_other_kind env ctx event hk.1] at h2
    cases h2
  · rintro ⟨h1, h2⟩
    have hk := (kind_reject_iff env ctx event).mp h1
    rw [manager_other_kind env ctx event hk.2] at h2
    cases h2
  · rintro ⟨h1, h2⟩
    by_cases hk : event.Kind = 3333
    · rw [signal_other_kind env ctx event (by rw [hk]; decide)] at h1
      cases h1
    · rw [manager_other_kind env ctx event hk] at h2
      cases h2

/-- C11 at three events: kind 1 is stopped by the Kind Gate, a Signal event
with empty content by the Signal validator, an unauthenticated Manager event
by the Manager validator. -/
theorem pipeline_ownership_witness :
    runRejectEvent rejectEventHooks (envWithRoster "k1,k2") ⟨"k2"⟩
        (mkEvent 1 upgradeTags "x") = (true, "unsupported kind: 1") ∧
    runRejectEvent rejectEventHooks (envWithRoster "k1,k2") ⟨"k2"⟩
        (mkEvent 33321 upgradeTags "") =
      (true, "hyperqube: content must be a human-readable string") ∧
    runRejectEvent rejectEventHooks (envWithRoster "k1,k2") ⟨""⟩
        (mkEvent 3333 managerTags "x") =
      (true, "auth-required: publishing Kind 3333 requires authentication") :=
  ⟨((pipeline_ownership (envWithRoster "k1,k2") ⟨"k2"⟩ (mkEvent 1 upgradeTags "x")).1
      (by decide) (by decide)).1.trans (by decide),
   ((pipeline_ownership (envWithRoster "k1,k2") ⟨"k2"⟩ (mkEvent 33321 upgradeTags "")).2.1
      rfl).1.trans (by decide),
   ((pipeline_ownership (envWithRoster "k1,k2") ⟨""⟩ (mkEvent 3333 managerTags "x")).2.2.1
      rfl).1.trans (by decide)⟩

/-- C12: for each of the four hooks and every input, the returned reason is
the empty string exactly when `reject` is false; every rejection carries a
non-empty reason. -/
theorem outcome_reason_empty_iff (env : Environ) (ctx : Context) (event : Event)
    (filter : Filter) :
    ((ValidateKind env ctx event).2 = "" ↔ (ValidateKind env ctx event).1 = false) ∧
    ((ValidateHyperSignalEvent env ctx event).2 = "" ↔
      (ValidateHyperSignalEvent env ctx event).1 = false) ∧
    ((ValidateQubeManagerEvent env ctx event).2 = "" ↔
      (ValidateQubeManagerEvent env ctx event).1 = false) ∧
    ((RequireAuth env ctx filter).2 = "" ↔ (RequireAuth env ctx filter).1 = false) ∧
    ((ValidateKind env ctx event).1 = true → (ValidateKind env ctx event).2 ≠ "") ∧
    ((ValidateHyperSignalEvent env ctx event).1 = true →
      (ValidateHyperSignalEvent env ctx event).2 ≠ "") ∧
    ((ValidateQubeManagerEvent env ctx event).1 = true →
      (ValidateQubeManagerEvent env ctx event).2 ≠ "") ∧
    ((RequireAuth env ctx filter).1 = true → (RequireAuth env ctx filter).2 ≠ "") := by
  have hr : (RequireAuth env ctx filter).2 = "" ↔ (RequireAuth env ctx filter).1 = false := by
    unfold RequireAuth
    split_ifs <;> simp
  have ne : ∀ o : Bool × String, (o.2 = "" ↔ o.1 = false) → o.1 = true → o.2 ≠ "" := by
    intro o h h1 h2
    rw [h.mp h2] at h1
    cases h1
  exact ⟨kind_reason_empty_iff env ctx event, signal_reason_empty_iff env ctx event,
    manager_reason_empty_iff env ctx event, hr,
    ne _ (kind_reason_empty_iff env ctx event), ne _ (signal_reason_empty_iff env ctx event),
    ne _ (manager_reason_empty_iff env ctx event), ne _ hr⟩

/-- C12 at a rejection whose reason is built from a tag name: the reason of
the missing-tag rejection is not empty. -/
theorem outcome_reason_empty_iff_witness :
    (ValidateHyperSignalEvent (envWithRoster "k1") ⟨"k1"⟩
      (mkEvent 33321 [["d", "hyperqube"]] "")).2 ≠ "" :=
  (outcome_reason_empty_iff (envWithRoster "k1") ⟨"k1"⟩
    (mkEvent 33321 [["d", "hyperqube"]] "") emptyFilter).2.2.2.2.2.1 (by decide)

/-! ## Facts about the reasons -/

theorem startsWith_iff_take (s start : String) :
    StartsWith s start ↔ s.data.take start.data.length = start.data := by
  unfold StartsWith
  constructor
  · intro h
    exact (List.prefix_iff_eq_take.mp h).symm
  · intro h
    rw [← h]
    exact List.take_prefix _ _

/-- Whether a string that begins with the literal `a` starts with `start` is
decided by `a` when `start` is no longer than `a`. -/
theorem startsWith_append_iff (a rest start : String)
    (h : start.data.length ≤ a.data.length) :
    StartsWith (a ++ rest) start ↔ StartsWith a start := by
  rw [startsWith_iff_take, startsWith_iff_take, String.data_append,
    List.take_append_of_le_length h]

theorem missing_ne_reboot (tag : String) :
    "hyperqube: missing required '" ++ tag ++ "' tag" ≠
      "hyperqube: 'reboot' action requires 'genesis_url' and 'required_by' tags" := by
  intro e
  have h : StartsWith ("hyperqube: missing required '" ++ tag ++ "' tag") "hyperqube: '" := by
    rw [e]
    decide
  rw [String.append_assoc, startsWith_append_iff _ _ _ (by decide)] at h
  exact absurd h (by decide)

/-! ## Reboot tags, the reference tag and tag lookups -/

/-- C13: for an event of kind 33321 that passes the rules before the reboot
rule (authenticated roster member, `d` with value `hyperqube`, version, hash,
network and action present) and has the action value `reboot`, a missing
`genesis_url` or `required_by` tag is rejected with the reboot message. When
the action value is `upgrade` the outcome is never the reboot message, and
with the other rules satisfied the event is accepted whether or not the two
tags are there. -/
theorem validateHyperSignalEvent_reboot_tags (env : Environ) (ctx : Context) (event : Event)
    (hk : event.Kind = 33321) :
    (GetAuthed ctx ≠ "" → GetAuthed ctx ∈ Split (rosterConfig env) ',' →
      TagNamedWithValue event "d" "hyperqube" →
      (∀ name ∈ ["version", "hash", "network", "action"], TagNamed event name) →
      getTagValue event "action" = "reboot" →
      (¬ TagNamed event "genesis_url" ∨ ¬ TagNamed event "required_by") →
      ValidateHyperSignalEvent env ctx event =
        (true, "hyperqube: 'reboot' action requires 'genesis_url' and 'required_by' tags")) ∧
    (getTagValue event "action" = "upgrade" →
      ValidateHyperSignalEvent env ctx event ≠
        (true, "hyperqube: 'reboot' action requires 'genesis_url' and 'required_by' tags")) ∧
    (GetAuthed ctx ≠ "" → GetAuthed ctx ∈ Split (rosterConfig env) ',' →
      TagNamedWithValue event "d" "hyperqube" →
      (∀ name ∈ ["version", "hash", "network", "action"], TagNamed event name) →
      getTagValue event "action" = "upgrade" → event.Content ≠ "" →
      ValidateHyperSignalEvent env ctx event = (false, "")) := by
  have auth : GetAuthed ctx ∈ Split (rosterConfig env) ',' →
      isAuthorizedIn (GetAuthed ctx) (Split (getEnv env "AUTHORIZED_PUBKEYS" "") ',') = true :=
    (isAuthorizedIn_iff _ _).mpr
  have dtag : TagNamedWithValue event "d" "hyperqube" →
      hasTagWithValue event "d" "hyperqube" = true := (hasTagWithValue_iff _ _ _).mpr
  have req : (∀ name ∈ ["version", "hash", "network", "action"], TagNamed event name) →
      firstMissingTag event ["version", "hash", "network", "action"] = none :=
    fun h => (firstMissingTag_eq_none_iff _ _).mpr (fun n hn => (hasTag_iff _ _).mpr (h n hn))
  refine ⟨?_, ?_, ?_⟩
  · intro h1 h2 h3 h4 h5 h6
    refine signal_reject_reboot env ctx event hk h1 (auth h2) (dtag h3) (req h4) h5 ?_
    rw [hasTag_eq_false_iff, hasTag_eq_false_iff]
    exact h6
  · intro hup
    unfold ValidateHyperSignalEvent
    simp only [hk, if_true, hup]
    repeat' split
    all_goals simp_all [missing_ne_reboot]
  · intro h1 h2 h3 h4 h5 h7
    rw [signal_accepts_iff_tests env ctx event hk]
    refine ⟨h1, auth h2, dtag h3, req h4, Or.inl h5, ?_, ?_⟩
    · intro h
      rw [h5] at h
      exact absurd h (by decide)
    · intro h
      exact h7 ((len_eq_zero_iff _).mp h)

/-- C13 at Scenario B (action `reboot`, `genesis_url` present, `required_by`
missing) and at the `upgrade` event without the two tags. -/
theorem validateHyperSignalEvent_reboot_tags_witness :
    ValidateHyperSignalEvent (envWithRoster "k1,k2") ⟨"k1"⟩
        (mkEvent 33321
          [["d", "hyperqube"], ["version", "1.2.0"], ["hash", "abc"], ["network", "main"],
           ["action", "reboot"], ["genesis_url", "https://example.org/g.json"]]
          "reboot the network") =
      (true, "hyperqube: 'reboot' action requires 'genesis_url' and 'required_by' tags") ∧
    ValidateHyperSignalEvent (envWithRoster "k1,k2") ⟨"k1"⟩
        (mkEvent 33321 upgradeTags "release notes") = (false, "") :=
  ⟨(validateHyperSignalEvent_reboot_tags (envWithRoster "k1,k2") ⟨"k1"⟩ _ rfl).1
      (by decide) (by decide) (by decide) (by decide) (by decide) (Or.inr (by decide)),
   (validateHyperSignalEvent_reboot_tags (envWithRoster "k1,k2") ⟨"k1"⟩
      (mkEvent 33321 upgradeTags "release notes") rfl).2.2
      (by decide) (by decide) (by decide) (by decide) (by decide) (by decide)⟩

theorem isAscii_utf8Size (c : Char) (h : c.toNat < 128) : c.utf8Size = 1 := by
  have h3 : c.val ≤ 127 := by
    rw [UInt32.le_def]
    exact Nat.lt_succ_iff.mp h
  simp [Char.utf8Size, h3]

theorem utf8ByteSize_go_of_ascii (cs : List Char) (h : ∀ c ∈ cs, c.toNat < 128) :
    String.utf8ByteSize.go cs = cs.length := by
  induction cs with
  | nil => rfl
  | cons c cs ih =>
    simp only [String.utf8ByteSize.go, List.length_cons]
    rw [ih (fun d hd => h d (by simp [hd])), isAscii_utf8Size c (h c (by simp))]

/-- On a string of ASCII characters `len` counts the characters. -/
theorem len_of_ascii (p : String) (h : ∀ c ∈ p.data, c.toNat < 128) : len p = p.length := by
  cases p with
  | mk data => exact utf8ByteSize_go_of_ascii data h

/-- A split into three pieces determines the string: the pieces joined by the
separator. The middle piece does not contain the separator. -/
theorem split_three (s a b c : String) (h : Split s ':' = [a, b, c]) :
    s = a ++ ":" ++ b ++ ":" ++ c ∧ ':' ∉ b.data := by
  have h2 : splitChars ':' s.data = [a.data, b.data, c.data] := by
    have h3 := congrArg (List.map String.data) h
    simpa [Split, List.map_map, Function.comp_def] using h3
  constructor
  · apply String.ext
    have hj := splitChars_intercalate ':' s.data
    rw [h2] at hj
    rw [← hj]
    simp [String.data_append, List.intercalate, List.intersperse]
  · exact splitChars_not_mem ':' s.data b.data (by rw [h2]; simp)

/-- C14 as stated fails: the Manager validator accepts an event whose `a` tag
carries 64 letters `z` (no hexadecimal digit among them) and one whose `a` tag
carries 32 letters `é` (64 bytes, 32 characters); neither value has the form
`33321:<64 hexadecimal digits>:hyperqube`. -/
theorem validateQubeManagerEvent_reference_counterexample :
    (mkEvent 3333 (managerTagsWithKey zKey) "x").Kind = 3333 ∧
    ValidateQubeManagerEvent (envWithRoster "") ⟨"k9"⟩
        (mkEvent 3333 (managerTagsWithKey zKey) "x") = (false, "") ∧
    (¬ ∃ key : String,
        getTagValue (mkEvent 3333 (managerTagsWithKey zKey) "x") "a" =
          "33321:" ++ key ++ ":hyperqube" ∧
        key.length = 64 ∧ ∀ c ∈ key.data, isHexChar c = true) ∧
    ValidateQubeManagerEvent (envWithRoster "") ⟨"k9"⟩
        (mkEvent 3333 (managerTagsWithKey accentKey) "x") = (false, "") ∧
    (¬ ∃ key : String,
        getTagValue (mkEvent 3333 (managerTagsWithKey accentKey) "x") "a" =
          "33321:" ++ key ++ ":hyperqube" ∧
        key.length = 64 ∧ ∀ c ∈ key.data, isHexChar c = true) := by
  have cancel : ∀ k key : String,
      "33321:" ++ k ++ ":hyperqube" = "33321:" ++ key ++ ":hyperqube" → key = k := by
    intro k key e
    have e2 := congrArg String.data e
    simp only [String.data_append] at e2
    have e3 := List.append_cancel_left (List.append_cancel_right e2)
    exact String.ext e3.symm
  refine ⟨rfl, by decide, ?_, by decide, ?_⟩
  · rintro ⟨key, hval, _, hhex⟩
    have hk : key = zKey := cancel zKey key hval
    subst hk
    exact absurd (hhex 'z' (by decide)) (by decide)
  · rintro ⟨key, hval, hlen, _⟩
    have hk : key = accentKey := cancel accentKey key hval
    subst hk
    exact absurd hlen (by decide)

/-- C14, amended: for an event of kind 3333 that the Manager validator
accepts, the value of the `a` tag is `33321:<p>:hyperqube` where `<p>` does
not contain `:` and is 64 bytes long (the `len` of the source). When the
characters of `<p>` are ASCII that is 64 characters. -/
theorem validateQubeManagerEvent_reference_shape (env : Environ) (ctx : Context) (event : Event)
    (hk : event.Kind = 3333) (hacc : ValidateQubeManagerEvent env ctx event = (false, "")) :
    ∃ key : String,
      getTagValue event "a" = "33321:" ++ key ++ ":hyperqube" ∧
      len key = 64 ∧ ':' ∉ key.data ∧
      ((∀ c ∈ key.data, c.toNat < 128) → key.length = 64) := by
  have h := ((manager_accepts_iff_tests env ctx event hk).mp hacc).2.2.1
  obtain ⟨key, hsplit, hlen⟩ := (aTagMalformed_eq_false_iff _).mp h
  have h3 := split_three _ _ _ _ hsplit
  refine ⟨key, ?_, hlen, h3.2, ?_⟩
  · rw [String.append_assoc]
    rw [String.append_assoc, String.append_assoc, String.append_assoc] at h3
    exact h3.1
  · intro hascii
    rw [← len_of_ascii key hascii]
    exact hlen

/-- C14, amended, at the three accepted events: the key of 64 hexadecimal
digits, the key of 64 letters `z` and the key of 32 letters `é` are all 64
bytes long. -/
theorem validateQubeManagerEvent_reference_shape_witness :
    (∃ key : String,
      getTagValue (mkEvent 3333 managerTags "x") "a" = "33321:" ++ key ++ ":hyperqube" ∧
      len key = 64 ∧ ':' ∉ key.data ∧ ((∀ c ∈ key.data, c.toNat < 128) → key.length = 64)) ∧
    (∃ key : String,
      getTagValue (mkEvent 3333 (managerTagsWithKey accentKey) "x") "a" =
        "33321:" ++ key ++ ":hyperqube" ∧
      len key = 64 ∧ ':' ∉ key.data ∧ ((∀ c ∈ key.data, c.toNat < 128) → key.length = 64)) :=
  ⟨validateQubeManagerEvent_reference_shape (envWithRoster "") ⟨"k9"⟩
      (mkEvent 3333 managerTags "x") rfl (by decide),
   validateQubeManagerEvent_reference_shape (envWithRoster "") ⟨"k9"⟩
      (mkEvent 3333 (managerTagsWithKey accentKey) "x") rfl (by decide)⟩

/-- The value that `getTagValue` returns, when it is not empty, is carried by
a tag of that name. -/
theorem getTagValueIn_hasTagWithValueIn (name value : String) (tags : List Tag)
    (hv : value ≠ "") (h : getTagValueIn name tags = value) :
    hasTagWithValueIn name value tags = true := by
  induction tags with
  | nil =>
    simp only [getTagValueIn] at h
    exact absurd h.symm hv
  | cons tag rest ih =>
    match tag with
    | [] => simpa [hasTagWithValueIn, getTagValueIn] using ih (by simpa [getTagValueIn] using h)
    | [t] => simpa [hasTagWithValueIn, getTagValueIn] using ih (by simpa [getTagValueIn] using h)
    | t :: u :: ts =>
      by_cases ht : t = name
      · by_cases hu : u = value
        · simp [hasTagWithValueIn, ht, hu]
        · simp [getTagValueIn, ht] at h
          exact absurd h hu
      · have h2 : getTagValueIn name rest = value := by simpa [getTagValueIn, ht] using h
        simp [hasTagWithValueIn, ht, ih h2]

/-- The loop of `getTagValue` returns at the first tag that has two elements
and the name. -/
theorem getTagValueIn_first (name v : String) (before : List Tag) (tag : Tag)
    (after : List Tag) (h0 : tag[0]? = some name) (h1 : tag[1]? = some v)
    (hb : ∀ t ∈ before, ¬ (t[0]? = some name ∧ 2 ≤ t.length)) :
    getTagValueIn name (before ++ tag :: after) = v := by
  induction before with
  | nil =>
    match tag with
    | [] => simp at h0
    | [t] => simp at h1
    | t :: u :: ts =>
      simp at h0 h1
      simp [getTagValueIn, h0, h1]
  | cons b before ih =>
    have hrest := ih (fun t ht => hb t (by simp [ht]))
    have hb0 := hb b (by simp)
    match b with
    | [] => simpa [getTagValueIn] using hrest
    | [t] => simpa [getTagValueIn] using hrest
    | t :: u :: ts =>
      have ht : t ≠ name := by
        intro e
        exact hb0 ⟨by simp [e], by simp⟩
      simpa [getTagValueIn, ht] using hrest

/-- When every tag of the name that has a value carries `value`, a tag with
that name and value makes `getTagValue` return `value`. -/
theorem hasTagWithValueIn_getTagValueIn (name value : String) (tags : List Tag)
    (huniq : ∀ tag ∈ tags, tag[0]? = some name → ∀ v, tag[1]? = some v → v = value)
    (h : hasTagWithValueIn name value tags = true) :
    getTagValueIn name tags = value := by
  induction tags with
  | nil => simp [hasTagWithValueIn] at h
  | cons tag rest ih =>
    have ih2 := ih (fun t ht => huniq t (by simp [ht]))
    have h0 := huniq tag (by simp)
    match tag with
    | [] => exact by simpa [getTagValueIn] using ih2 (by simpa [hasTagWithValueIn] using h)
    | [t] => exact by simpa [getTagValueIn] using ih2 (by simpa [hasTagWithValueIn] using h)
    | t :: u :: ts =>
      by_cases ht : t = name
      · have hu : u = value := h0 (by simp [ht]) u (by simp)
        simp [getTagValueIn, ht, hu]
      · have h2 : hasTagWithValueIn name value rest = true := by
          simpa [hasTagWithValueIn, ht] using h
        simpa [getTagValueIn, ht] using ih2 h2

/-- C15 as stated fails: the Signal validator accepts an event whose first
tag named `d` has the value `other` and whose second tag named `d` has the
value `hyperqube`; `getTagValue` of `d` is `other` although `hasTagWithValue`
holds of `d` and `hyperqube`. -/
theorem tag_lookup_counterexample :
    (mkEvent 33321 shadowedTags "release notes").Kind = 33321 ∧
    ValidateHyperSignalEvent (envWithRoster "k1,k2") ⟨"k2"⟩
        (mkEvent 33321 shadowedTags "release notes") = (false, "") ∧
    getTagValue (mkEvent 33321 shadowedTags "release notes") "d" = "other" ∧
    getTagValue (mkEvent 33321 shadowedTags "release notes") "d" ≠ "hyperqube" ∧
    hasTagWithValue (mkEvent 33321 shadowedTags "release notes") "d" "hyperqube" = true := by
  decide

/-- C15, amended: `getTagValue` returns the first match, element 1 of the
first tag that has at least two elements and the name. For an event of kind
33321 that the Signal validator accepts, some tag named `d` has the value
`hyperqube` (not necessarily the first one). For a non-empty value,
`getTagValue(event, name) = value` implies `hasTagWithValue(event, name,
value)`; the converse holds when every tag of that name that has a value
carries that value. -/
theorem tag_lookup_first_match (env : Environ) (ctx : Context) (event : Event) :
    (∀ (name v : String) (before : List Tag) (tag : Tag) (after : List Tag),
      event.Tags = before ++ tag :: after → tag[0]? = some name → tag[1]? = some v →
      (∀ t ∈ before, ¬ (t[0]? = some name ∧ 2 ≤ t.length)) →
      getTagValue event name = v) ∧
    (event.Kind = 33321 → ValidateHyperSignalEvent env ctx event = (false, "") →
      TagNamedWithValue event "d" "hyperqube" ∧
      hasTagWithValue event "d" "hyperqube" = true) ∧
    (∀ name value : String, value ≠ "" → getTagValue event name = value →
      hasTagWithValue event name value = true) ∧
    (∀ name value : String,
      (∀ tag ∈ event.Tags, tag[0]? = some name → ∀ v, tag[1]? = some v → v = value) →
      hasTagWithValue event name value = true → getTagValue event name = value) := by
  refine ⟨?_, ?_, ?_, ?_⟩
  · intro name v before tag after hsplit h0 h1 hb
    unfold getTagValue
    rw [hsplit]
    exact getTagValueIn_first name v before tag after h0 h1 hb
  · intro hk hacc
    have h := ((signal_accepts_iff_tests env ctx event hk).mp hacc).2.2.1
    exact ⟨(hasTagWithValue_iff _ _ _).mp h, h⟩
  · intro name value hv h
    exact getTagValueIn_hasTagWithValueIn name value event.Tags hv h
  · intro name value huniq h
    exact hasTagWithValueIn_getTagValueIn name value event.Tags huniq h

/-- C15, amended, at the event with two tags named `d`: `getTagValue` returns
the value of the first, `other`, and the accepted event has a tag `d` with
value `hyperqube`. -/
theorem tag_lookup_first_match_witness :
    getTagValue (mkEvent 33321 shadowedTags "release notes") "d" = "other" ∧
    TagNamedWithValue (mkEvent 33321 shadowedTags "release notes") "d" "hyperqube" :=
  ⟨(tag_lookup_first_match (envWithRoster "k1,k2") ⟨"k2"⟩
      (mkEvent 33321 shadowedTags "release notes")).1 "d" "other" [] ["d", "other"]
      upgradeTags rfl rfl rfl (by decide),
   ((tag_lookup_first_match (envWithRoster "k1,k2") ⟨"k2"⟩
      (mkEvent 33321 shadowedTags "release notes")).2.1 rfl (by decide)).1⟩

/-! ## The tag accessors -/

theorem hasTagIn_cons_skip (name : String) (tag : Tag) (rest : List Tag)
    (h : tag[0]? ≠ some name) : hasTagIn name (tag :: rest) = hasTagIn name rest := by
  match tag with
  | [] => simp [hasTagIn]
  | t :: ts =>
    have ht : t ≠ name := by simpa using h
    simp [hasTagIn, ht]

theorem hasTagWithValueIn_cons_skip (name value : String) (tag : Tag) (rest : List Tag)
    (h : ¬ (tag[0]? = some name ∧ 2 ≤ tag.length)) :
    hasTagWithValueIn name value (tag :: rest) = hasTagWithValueIn name value rest := by
  match tag with
  | [] => simp [hasTagWithValueIn]
  | [t] => simp [hasTagWithValueIn]
  | t :: u :: ts =>
    have ht : t ≠ name := by simpa using h
    simp [hasTagWithValueIn, ht]

theorem getTagValueIn_cons_skip (name : String) (tag : Tag) (rest : List Tag)
    (h : ¬ (tag[0]? = some name ∧ 2 ≤ tag.length)) :
    getTagValueIn name (tag :: rest) = getTagValueIn name rest := by
  match tag with
  | [] => simp [getTagValueIn]
  | [t] => simp [getTagValueIn]
  | t :: u :: ts =>
    have ht : t ≠ name := by simpa using h
    simp [getTagValueIn, ht]

theorem hasTagIn_cons_congr (name : String) (tag : Tag) (l1 l2 : List Tag)
    (h : hasTagIn name l1 = hasTagIn name l2) :
    hasTagIn name (tag :: l1) = hasTagIn name (tag :: l2) := by
  match tag with
  | [] => simpa [hasTagIn] using h
  | t :: ts =>
    by_cases ht : t = name
    · simp [hasTagIn, ht]
    · simpa [hasTagIn, ht] using h

theorem hasTagWithValueIn_cons_congr (name value : String) (tag : Tag) (l1 l2 : List Tag)
    (h : hasTagWithValueIn name value l1 = hasTagWithValueIn name value l2) :
    hasTagWithValueIn name value (tag :: l1) = hasTagWithValueIn name value (tag :: l2) := by
  match tag with
  | [] => simpa [hasTagWithValueIn] using h
  | [t] => simpa [hasTagWithValueIn] using h
  | t :: u :: ts =>
    by_cases ht : t = name ∧ u = value
    · simp [hasTagWithValueIn, ht]
    · simp only [hasTagWithValueIn]
      simp only [List.length_cons, gt_iff_lt, Nat.lt_add_left_iff_pos, Nat.zero_lt_succ,
        dite_true, List.getElem_cons_zero, List.getElem_cons_succ, ht, if_false]
      exact h

theorem getTagValueIn_cons_congr (name : String) (tag : Tag) (l1 l2 : List Tag)
    (h : getTagValueIn name l1 = getTagValueIn name l2) :
    getTagValueIn name (tag :: l1) = getTagValueIn name (tag :: l2) := by
  match tag with
  | [] => simpa [getTagValueIn] using h
  | [t] => simpa [getTagValueIn] using h
  | t :: u :: ts =>
    by_cases ht : t = name
    · simp [getTagValueIn, ht]
    · simpa [getTagValueIn, ht] using h

/-- A tag whose element 0 is not `name` can be inserted anywhere without
changing `hasTag` of `name`. -/
theorem hasTagIn_insert (name : String) (before : List Tag) (tag : Tag) (after : List Tag)
    (h : tag[0]? ≠ some name) :
    hasTagIn name (before ++ tag :: after) = hasTagIn name (before ++ after) := by
  induction before with
  | nil => exact hasTagIn_cons_skip name tag after h
  | cons b before ih => exact hasTagIn_cons_congr name b _ _ ih

theorem hasTagWithValueIn_insert (name value : String) (before : List Tag) (tag : Tag)
    (after : List Tag) (h : ¬ (tag[0]? = some name ∧ 2 ≤ tag.length)) :
    hasTagWithValueIn name value (before ++ tag :: after) =
      hasTagWithValueIn name value (before ++ after) := by
  induction before with
  | nil => exact hasTagWithValueIn_cons_skip name value tag after h
  | cons b before ih => exact hasTagWithValueIn_cons_congr name value b _ _ ih

theorem getTagValueIn_insert (name : String) (before : List Tag) (tag : Tag)
    (after : List Tag) (h : ¬ (tag[0]? = some name ∧ 2 ≤ tag.length)) :
    getTagValueIn name (before ++ tag :: after) = getTagValueIn name (before ++ after) := by
  induction before with
  | nil => exact getTagValueIn_cons_skip name tag after h
  | cons b before ih => exact getTagValueIn_cons_congr name b _ _ ih

theorem hasTagChecked_eq (name : String) (tags : List Tag) :
    hasTagChecked name tags = some (hasTagIn name tags) := by
  induction tags with
  | nil => rfl
  | cons tag rest ih =>
    match tag with
    | [] => simpa [hasTagChecked, hasTagIn] using ih
    | t :: ts =>
      by_cases ht : t = name
      · simp [hasTagChecked, hasTagIn, index, ht]
      · simpa [hasTagChecked, hasTagIn, index, ht] using ih

theorem hasTagWithValueChecked_eq (name value : String) (tags : List Tag) :
    hasTagWithValueChecked name value tags = some (hasTagWithValueIn name value tags) := by
  induction tags with
  | nil => rfl
  | cons tag rest ih =>
    match tag with
    | [] => simpa [hasTagWithValueChecked, hasTagWithValueIn] using ih
    | [t] => simpa [hasTagWithValueChecked, hasTagWithValueIn] using ih
    | t :: u :: ts =>
      by_cases ht : t = name
      · by_cases hu : u = value
        · simp [hasTagWithValueChecked, hasTagWithValueIn, index, ht, hu]
        · simpa [hasTagWithValueChecked, hasTagWithValueIn, index, ht, hu] using ih
      · simpa [hasTagWithValueChecked, hasTagWithValueIn, index, ht] using ih

theorem getTagValueChecked_eq (name : String) (tags : List Tag) :
    getTagValueChecked name tags = some (getTagValueIn name tags) := by
  induction tags with
  | nil => rfl
  | cons tag rest ih =>
    match tag with
    | [] => simpa [getTagValueChecked, getTagValueIn] using ih
    | [t] => simpa [getTagValueChecked, getTagValueIn] using ih
    | t :: u :: ts =>
      by_cases ht : t = name
      · simp [getTagValueChecked, getTagValueIn, index, ht]
      · simpa [getTagValueChecked, getTagValueIn, index, ht] using ih

theorem getTagValueIn_absent (name : String) (tags : List Tag)
    (h : ∀ tag ∈ tags, tag[0]? ≠ some name) : getTagValueIn name tags = "" := by
  induction tags with
  | nil => rfl
  | cons tag rest ih =>
    rw [getTagValueIn_cons_skip name tag rest (fun hc => h tag (by simp) hc.1)]
    exact ih (fun t ht => h t (by simp [ht]))

/-- C16: the tag accessors are total and degrade to "not found". With every
index expression checked they return a result (no index is out of range) for
every event, name and value, and the result is the one of the accessor. A
zero-element tag never matches `hasTag`; a tag with fewer than two elements
never matches `hasTagWithValue` and never supplies the result of
`getTagValue`: such a tag can be taken out of any position without changing
the result. If no tag has element 0 equal to the name then `hasTag` and
`hasTagWithValue` are false and `getTagValue` is `""`. -/
theorem tag_accessors_total (event : Event) (name value : String) :
    hasTagChecked name event.Tags = some (hasTag event name) ∧
    hasTagWithValueChecked name value event.Tags = some (hasTagWithValue event name value) ∧
    getTagValueChecked name event.Tags = some (getTagValue event name) ∧
    (∀ before after : List Tag, event.Tags = before ++ [] :: after →
      hasTag event name = hasTag (withTags event (before ++ after)) name) ∧
    (∀ (before : List Tag) (tag : Tag) (after : List Tag),
      event.Tags = before ++ tag :: after → tag.length < 2 →
      hasTagWithValue event name value =
        hasTagWithValue (withTags event (before ++ after)) name value ∧
      getTagValue event name = getTagValue (withTags event (before ++ after)) name) ∧
    ((∀ tag ∈ event.Tags, tag[0]? ≠ some name) →
      hasTag event name = false ∧ hasTagWithValue event name value = false ∧
      getTagValue event name = "") := by
  refine ⟨hasTagChecked_eq name event.Tags, hasTagWithValueChecked_eq name value event.Tags,
    getTagValueChecked_eq name event.Tags, ?_, ?_, ?_⟩
  · intro before after hsplit
    unfold hasTag withTags
    rw [hsplit]
    exact hasTagIn_insert name before [] after (by simp)
  · intro before tag after hsplit hlen
    have hskip : ¬ (tag[0]? = some name ∧ 2 ≤ tag.length) := fun hc => by omega
    unfold hasTagWithValue getTagValue withTags
    rw [hsplit]
    exact ⟨hasTagWithValueIn_insert name value before tag after hskip,
      getTagValueIn_insert name before tag after hskip⟩
  · intro habsent
    refine ⟨?_, ?_, getTagValueIn_absent name event.Tags habsent⟩
    · rw [hasTag_eq_false_iff]
      rintro ⟨tag, hmem, h0⟩
      exact habsent tag hmem h0
    · rw [← Bool.not_eq_true, hasTagWithValue_iff]
      rintro ⟨tag, hmem, h0, _⟩
      exact habsent tag hmem h0

/-- C16 at malformed tag lists: an empty tag does not match the name `""`, a
tag with the name alone supplies no value, and the checked accessors return
on them. -/
theorem tag_accessors_total_witness :
    hasTagChecked "" [[], ["d"]] = some false ∧
    hasTagWithValueChecked "d" "" [[], ["d"]] = some false ∧
    getTagValueChecked "d" [[], ["d"], ["d", "hyperqube"]] = some "hyperqube" ∧
    getTagValue (mkEvent 33321 [[], ["d"]] "") "version" = "" :=
  ⟨(tag_accessors_total (mkEvent 33321 [[], ["d"]] "") "" "").1.trans (by decide),
   (tag_accessors_total (mkEvent 33321 [[], ["d"]] "") "d" "").2.1.trans (by decide),
   (tag_accessors_total (mkEvent 33321 [[], ["d"], ["d", "hyperqube"]] "") "d" "").2.2.1.trans
      (by decide),
   ((tag_accessors_total (mkEvent 33321 [[], ["d"]] "") "version" "").2.2.2.2.2
      (by decide)).2.2⟩

/-- C18: the three tag accessors are consistent with each other.
`hasTagWithValue(event, name, value)` implies `hasTag(event, name)`;
`getTagValue(event, name) = value` with a non-empty value implies
`hasTagWithValue(event, name, value)`; when `hasTag(event, name)` is false,
`getTagValue(event, name)` is `""` and `hasTagWithValue(event, name, value)`
is false. The converse of the first fails: with the single tag `["action"]`
the tag is present for `hasTag`, its value is `""` for `getTagValue` and
`hasTagWithValue` holds of no value. -/
theorem tag_accessors_consistent (event : Event) (name value : String) :
    (hasTagWithValue event name value = true → hasTag event name = true) ∧
    (value ≠ "" → getTagValue event name = value →
      hasTagWithValue event name value = true) ∧
    (hasTag event name = false →
      getTagValue event name = "" ∧ hasTagWithValue event name value = false) ∧
    (∃ (other : Event) (present : String), hasTag other present = true ∧
      getTagValue other present = "" ∧
      ∀ v : String, hasTagWithValue other present v = false) := by
  refine ⟨?_, ?_, ?_, ?_⟩
  · rw [hasTagWithValue_iff, hasTag_iff]
    rintro ⟨tag, hmem, h0, _⟩
    exact ⟨tag, hmem, h0⟩
  · exact getTagValueIn_hasTagWithValueIn name value event.Tags
  · intro h
    have habsent : ∀ tag ∈ event.Tags, tag[0]? ≠ some name := by
      intro tag hmem h0
      exact (hasTag_eq_false_iff event name).mp h ⟨tag, hmem, h0⟩
    refine ⟨getTagValueIn_absent name event.Tags habsent, ?_⟩
    rw [← Bool.not_eq_true, hasTagWithValue_iff]
    rintro ⟨tag, hmem, h0, _⟩
    exact habsent tag hmem h0
  · refine ⟨mkEvent 33321 [["action"]] "", "action", by decide, by decide, ?_⟩
    intro v
    simp [hasTagWithValue, hasTagWithValueIn, mkEvent]

/-- C18 at the event that has the tag `["action", "upgrade"]`: from the value
returned by `getTagValue` to `hasTagWithValue` and on to `hasTag`. -/
theorem tag_accessors_consistent_witness :
    hasTag (mkEvent 33321 upgradeTags "") "action" = true ∧
    getTagValue (mkEvent 33321 upgradeTags "") "status" = "" :=
  ⟨(tag_accessors_consistent (mkEvent 33321 upgradeTags "") "action" "upgrade").1
      ((tag_accessors_consistent (mkEvent 33321 upgradeTags "") "action" "upgrade").2.1
        (by decide) (by decide)),
   ((tag_accessors_consistent (mkEvent 33321 upgradeTags "") "status" "").2.2.1
      (by decide)).1⟩

/-! ## The wording of the reasons -/

/-- C17: rejection reasons are machine-prefixed. Every reason with which
`ValidateHyperSignalEvent` rejects starts with `"auth-required: "`,
`"restricted: "` or `"hyperqube: "`; every reason with which
`ValidateQubeManagerEvent` rejects starts with `"auth-required: "` or
`"qube-manager: "`; the reason with which `RequireAuth` rejects starts with
`"auth-required: "`. None of the three ever returns a reason that starts with
`"unsupported kind"`, which the Kind Gate's reasons all do. -/
theorem reasons_machine_prefixed (env : Environ) (ctx : Context) (event : Event)
    (filter : Filter) :
    ((ValidateHyperSignalEvent env ctx event).1 = true →
      StartsWith (ValidateHyperSignalEvent env ctx event).2 "auth-required: " ∨
      StartsWith (ValidateHyperSignalEvent env ctx event).2 "restricted: " ∨
      StartsWith (ValidateHyperSignalEvent env ctx event).2 "hyperqube: ") ∧
    ((ValidateQubeManagerEvent env ctx event).1 = true →
      StartsWith (ValidateQubeManagerEvent env ctx event).2 "auth-required: " ∨
      StartsWith (ValidateQubeManagerEvent env ctx event).2 "qube-manager: ") ∧
    ((RequireAuth env ctx filter).1 = true →
      StartsWith (RequireAuth env ctx filter).2 "auth-required: ") ∧
    ¬ StartsWith (ValidateHyperSignalEvent env ctx event).2 "unsupported kind" ∧
    ¬ StartsWith (ValidateQubeManagerEvent env ctx event).2 "unsupported kind" ∧
    ¬ StartsWith (RequireAuth env ctx filter).2 "unsupported kind" ∧
    ((ValidateKind env ctx event).1 = true →
      StartsWith (ValidateKind env ctx event).2 "unsupported kind: ") := by
  refine ⟨?_, ?_, ?_, ?_, ?_, ?_, ?_⟩
  · unfold ValidateHyperSignalEvent
    simp only []
    repeat' split
    all_goals first
      | decide
      | (intro _
         right
         right
         rw [String.append_assoc, startsWith_append_iff _ _ _ (by decide)]
         decide)
  · unfold ValidateQubeManagerEvent
    simp only []
    repeat' split
    all_goals first
      | decide
      | (intro _
         right
         rw [String.append_assoc, startsWith_append_iff _ _ _ (by decide)]
         decide)
  · unfold RequireAuth
    split <;> decide
  · unfold ValidateHyperSignalEvent
    simp only []
    repeat' split
    all_goals first
      | decide
      | (rw [String.append_assoc, startsWith_append_iff _ _ _ (by decide)]
         decide)
  · unfold ValidateQubeManagerEvent
    simp only []
    repeat' split
    all_goals first
      | decide
      | (rw [String.append_assoc, startsWith_append_iff _ _ _ (by decide)]
         decide)
  · unfold RequireAuth
    split <;> decide
  · unfold ValidateKind
    split
    · intro _
      rw [startsWith_append_iff _ _ _ (by decide)]
      decide
    · decide

/-- C17 at the rejection whose reason is built from a tag name, and at a
rejection of the Kind Gate. -/
theorem reasons_machine_prefixed_witness :
    StartsWith (ValidateQubeManagerEvent (envWithRoster "") ⟨"k9"⟩
      (mkEvent 3333 [["a", "x"]] "")).2 "qube-manager: " ∧
    StartsWith (ValidateKind (envWithRoster "") ⟨"k9"⟩ (mkEvent 7 [] "")).2
      "unsupported kind: " :=
  ⟨((reasons_machine_prefixed (envWithRoster "") ⟨"k9"⟩ (mkEvent 3333 [["a", "x"]] "")
      emptyFilter).2.1 (by decide)).resolve_left (by decide),
   (reasons_machine_prefixed (envWithRoster "") ⟨"k9"⟩ (mkEvent 7 [] "")
      emptyFilter).2.2.2.2.2.2 (by decide)⟩

/-! ## What the validators read -/

theorem firstMissingTag_congr (e1 e2 : Event) (names : List String)
    (h : ∀ n ∈ names, hasTag e1 n = hasTag e2 n) :
    firstMissingTag e1 names = firstMissingTag e2 names := by
  induction names with
  | nil => rfl
  | cons n rest ih =>
    simp only [firstMissingTag]
    rw [h n (by simp), ih (fun m hm => h m (by simp [hm]))]

/-- The Signal validator reads the identity, the roster option, the kind, the
content and the results of its tag lookups, and nothing else. -/
theorem signal_congr (env1 env2 : Environ) (ctx1 ctx2 : Context) (e1 e2 : Event)
    (hctx : GetAuthed ctx1 = GetAuthed ctx2) (henv : rosterConfig env1 = rosterConfig env2)
    (hK : e1.Kind = e2.Kind) (hC : e1.Content = e2.Content)
    (hd : hasTagWithValue e1 "d" "hyperqube" = hasTagWithValue e2 "d" "hyperqube")
    (hreq : ∀ n ∈ ["version", "hash", "network", "action", "genesis_url", "required_by"],
      hasTag e1 n = hasTag e2 n)
    (ha : getTagValue e1 "action" = getTagValue e2 "action") :
    ValidateHyperSignalEvent env1 ctx1 e1 = ValidateHyperSignalEvent env2 ctx2 e2 := by
  have henv2 : getEnv env1 "AUTHORIZED_PUBKEYS" "" = getEnv env2 "AUTHORIZED_PUBKEYS" "" := henv
  have hfm : firstMissingTag e1 ["version", "hash", "network", "action"] =
      firstMissingTag e2 ["version", "hash", "network", "action"] :=
    firstMissingTag_congr e1 e2 _ (fun n hn => hreq n (by
      simp only [List.mem_cons, List.mem_singleton, List.not_mem_nil, or_false] at hn ⊢
      tauto))
  have hg := hreq "genesis_url" (by simp)
  have hr := hreq "required_by" (by simp)
  unfold ValidateHyperSignalEvent
  rw [hctx, henv2, hK, hC, hd, hfm, ha, hg, hr]

/-- The Manager validator reads whether the identity is empty, the kind, the
content and the results of its tag lookups, and nothing else. -/
theorem manager_congr (env1 env2 : Environ) (ctx1 ctx2 : Context) (e1 e2 : Event)
    (hctx : GetAuthed ctx1 = GetAuthed ctx2)
    (hK : e1.Kind = e2.Kind) (hC : e1.Content = e2.Content)
    (hreq : ∀ n ∈ ["a", "version", "network", "action", "status", "node_id", "action_at",
      "error"], hasTag e1 n = hasTag e2 n)
    (hval : ∀ n ∈ ["a", "action", "status"], getTagValue e1 n = getTagValue e2 n) :
    ValidateQubeManagerEvent env1 ctx1 e1 = ValidateQubeManagerEvent env2 ctx2 e2 := by
  have hfm : firstMissingTag e1
        ["a", "version", "network", "action", "status", "node_id", "action_at"] =
      firstMissingTag e2
        ["a", "version", "network", "action", "status", "node_id", "action_at"] :=
    firstMissingTag_congr e1 e2 _ (fun n hn => hreq n (by
      simp only [List.mem_cons, List.mem_singleton, List.not_mem_nil, or_false] at hn ⊢
      tauto))
  have he := hreq "error" (by simp)
  have h1 := hval "a" (by simp)
  have h2 := hval "action" (by simp)
  have h3 := hval "status" (by simp)
  unfold ValidateQubeManagerEvent
  rw [hctx, hK, hC, hfm, he, h1, h2, h3]

/-- C19: the outcome of every event hook is independent of the event's ID and
of its author's public key (and of the time stamp and signature). Two events
that agree on kind, tags and content get equal outcomes from `ValidateKind`,
`ValidateHyperSignalEvent` and `ValidateQubeManagerEvent` under the same
identity and roster; Signal authorization is decided by the identity of the
connection. -/
theorem outcome_independent_of_author (env1 env2 : Environ) (ctx1 ctx2 : Context)
    (e1 e2 : Event)
    (hctx : GetAuthed ctx1 = GetAuthed ctx2) (henv : rosterConfig env1 = rosterConfig env2)
    (hK : e1.Kind = e2.Kind) (hT : e1.Tags = e2.Tags) (hC : e1.Content = e2.Content) :
    ValidateKind env1 ctx1 e1 = ValidateKind env2 ctx2 e2 ∧
    ValidateHyperSignalEvent env1 ctx1 e1 = ValidateHyperSignalEvent env2 ctx2 e2 ∧
    ValidateQubeManagerEvent env1 ctx1 e1 = ValidateQubeManagerEvent env2 ctx2 e2 := by
  have ht : ∀ n, hasTag e1 n = hasTag e2 n := by
    intro n
    unfold hasTag
    rw [hT]
  have hv : ∀ n, getTagValue e1 n = getTagValue e2 n := by
    intro n
    unfold getTagValue
    rw [hT]
  have hw : ∀ n v, hasTagWithValue e1 n v = hasTagWithValue e2 n v := by
    intro n v
    unfold hasTagWithValue
    rw [hT]
  refine ⟨?_, ?_, ?_⟩
  · unfold ValidateKind
    rw [hK]
  · exact signal_congr env1 env2 ctx1 ctx2 e1 e2 hctx henv hK hC (hw _ _)
      (fun n _ => ht n) (hv _)
  · exact manager_congr env1 env2 ctx1 ctx2 e1 e2 hctx hK hC (fun n _ => ht n)
      (fun n _ => hv n)

/-- C19 at two Signal events with the same kind, tags and content: the one
whose author `k1` is in the roster is rejected when the connection is
authenticated as `k3`, and the one whose author `k3` is not in the roster is
accepted when the connection is authenticated as `k1`. -/
theorem outcome_independent_of_author_witness :
    ValidateHyperSignalEvent (envWithRoster "k1,k2") ⟨"k3"⟩
        { ID := "e7", PubKey := "k1", CreatedAt := 5, Kind := 33321, Tags := upgradeTags,
          Content := "release notes", Sig := "s7" } =
      (true, "restricted: your public key is not authorized to publish Kind 33321 events") ∧
    ValidateHyperSignalEvent (envWithRoster "k1,k2") ⟨"k1"⟩
        { ID := "e8", PubKey := "k3", CreatedAt := 9, Kind := 33321, Tags := upgradeTags,
          Content := "release notes", Sig := "s8" } = (false, "") :=
  ⟨((outcome_independent_of_author (envWithRoster "k1,k2") (envWithRoster "k1,k2")
      ⟨"k3"⟩ ⟨"k3"⟩
      { ID := "e7", PubKey := "k1", CreatedAt := 5, Kind := 33321, Tags := upgradeTags,
        Content := "release notes", Sig := "s7" }
      (mkEvent 33321 upgradeTags "release notes") rfl rfl rfl rfl rfl).2.1).trans (by decide),
   ((outcome_independent_of_author (envWithRoster "k1,k2") (envWithRoster "k1,k2")
      ⟨"k1"⟩ ⟨"k1"⟩
      { ID := "e8", PubKey := "k3", CreatedAt := 9, Kind := 33321, Tags := upgradeTags,
        Content := "release notes", Sig := "s8" }
      (mkEvent 33321 upgradeTags "release notes") rfl rfl rfl rfl rfl).2.1).trans (by decide)⟩

/-- C20: unknown tags are ignored. Inserting, at any position of an event's
tags, a zero-element tag or a tag whose element 0 is none of the names the
validators look up (d, version, hash, network, action, genesis_url,
required_by, a, status, node_id, action_at, error) changes the outcome of
neither `ValidateHyperSignalEvent` nor `ValidateQubeManagerEvent`. -/
theorem unknown_tags_ignored (env : Environ) (ctx : Context) (event : Event)
    (before after : List Tag) (tag : Tag) (hsplit : event.Tags = before ++ after)
    (hunknown : tag = [] ∨ ∀ name ∈ inspectedNames, tag[0]? ≠ some name) :
    ValidateHyperSignalEvent env ctx (withTags event (before ++ tag :: after)) =
      ValidateHyperSignalEvent env ctx event ∧
    ValidateQubeManagerEvent env ctx (withTags event (before ++ tag :: after)) =
      ValidateQubeManagerEvent env ctx event := by
  have hne : ∀ name ∈ inspectedNames, tag[0]? ≠ some name := by
    rcases hunknown with h | h
    · intro name _
      rw [h]
      simp
    · exact h
  have ht : ∀ n ∈ inspectedNames,
      hasTag (withTags event (before ++ tag :: after)) n = hasTag event n := by
    intro n hn
    unfold hasTag withTags
    rw [hsplit]
    exact hasTagIn_insert n before tag after (hne n hn)
  have hv : ∀ n ∈ inspectedNames,
      getTagValue (withTags event (before ++ tag :: after)) n = getTagValue event n := by
    intro n hn
    unfold getTagValue withTags
    rw [hsplit]
    exact getTagValueIn_insert n before tag after (fun hc => hne n hn hc.1)
  have hw : hasTagWithValue (withTags event (before ++ tag :: after)) "d" "hyperqube" =
      hasTagWithValue event "d" "hyperqube" := by
    unfold hasTagWithValue withTags
    rw [hsplit]
    exact hasTagWithValueIn_insert "d" "hyperqube" before tag after
      (fun hc => hne "d" (by decide) hc.1)
  constructor
  · refine signal_congr env env ctx ctx _ event rfl rfl rfl rfl hw ?_ (hv _ (by decide))
    intro n hn
    refine ht n ?_
    simp only [List.mem_cons, List.mem_singleton, List.not_mem_nil, or_false] at hn
    rcases hn with h | h | h | h | h | h <;> rw [h] <;> decide
  · refine manager_congr env env ctx ctx _ event rfl rfl rfl ?_ ?_
    · intro n hn
      refine ht n ?_
      simp only [List.mem_cons, List.mem_singleton, List.not_mem_nil, or_false] at hn
      rcases hn with h | h | h | h | h | h | h | h <;> rw [h] <;> decide
    · intro n hn
      refine hv n ?_
      simp only [List.mem_cons, List.mem_singleton, List.not_mem_nil, or_false] at hn
      rcases hn with h | h | h <;> rw [h] <;> decide

/-- C20 at the well-formed `upgrade` event with the tag `["client", "cli"]`
inserted after the `d` tag, and at Scenario D with an empty tag in front:
both are still accepted. -/
theorem unknown_tags_ignored_witness :
    ValidateHyperSignalEvent (envWithRoster "k1,k2") ⟨"k2"⟩
        (mkEvent 33321
          [["d", "hyperqube"], ["client", "cli"], ["version", "1.2.0"], ["hash", "abc"],
           ["network", "main"], ["action", "upgrade"]] "release notes") = (false, "") ∧
    ValidateQubeManagerEvent (envWithRoster "") ⟨"k9"⟩
        (mkEvent 3333 ([] :: managerTags) "node upgraded") = (false, "") :=
  ⟨((unknown_tags_ignored (envWithRoster "k1,k2") ⟨"k2"⟩
      (mkEvent 33321 upgradeTags "release notes") [["d", "hyperqube"]]
      [["version", "1.2.0"], ["hash", "abc"], ["network", "main"], ["action", "upgrade"]]
      ["client", "cli"] rfl (Or.inr (by decide))).1).trans (by decide),
   ((unknown_tags_ignored (envWithRoster "") ⟨"k9"⟩
      (mkEvent 3333 managerTags "node upgraded") [] managerTags [] rfl (Or.inl rfl)).2).trans
      (by decide)⟩

end Qubestr
